import Mathlib

/-!
Shallow embedding, in Lean 4, of the CV-to-job-description workflow
orchestrator (src/src/orchestrator) and of its tutorial `RankingService`
(src/src/services/ranking.py), together with machine-checked verdicts for
the specification claims C1-C10.

Modelling conventions used throughout:

* Python `float` arithmetic is modelled by real arithmetic over `ℝ`
  (`math.exp` becomes `Real.exp`); machine integers from the video API are
  `Int`; durations are `Nat` seconds.
* Python strings are Lean `String`s.  Python's `str.lower` / `str.strip`
  are embedded as explicit character-list maps (`lowerStr` / `trimStr`)
  so that concrete instances reduce inside the kernel.
* `datetime.now(timezone.utc)` is passed in explicitly as a `now`
  parameter (seconds since the Unix epoch), making the scoring functions
  deterministic.
* The orchestrator's collaborators (`drive`, `docs`, `gmail`, `llm`,
  `youtube`, `gemini`) are deterministic oracle functions collected in a
  `Deps` record; each call is also logged into the `World` record, which
  plays the role of the storage backend plus an effect trace.  Exceptions
  are an `Except Err` result; `ApprovalPendingError` is the constructor
  `Err.approvalPending`.
* Logging statements are omitted (they have no observable effect modelled
  by any claim); the Python distinction between an absent dict key and a
  key stored as `None` is collapsed into `Option`, matching the
  truthiness checks (`state.get(...)`) that every guard in the source
  uses.
-/

namespace SpecProof

/-! ## String helpers (embeddings of Python str.lower / str.strip / `in`) -/

/-- Embedding of Python `str.lower` (ASCII case mapping). -/
def lowerStr (s : String) : String := String.mk (s.data.map Char.toLower)

/-- Embedding of Python `str.strip` on a character list. -/
def trimChars (cs : List Char) : List Char :=
  ((cs.dropWhile Char.isWhitespace).reverse.dropWhile Char.isWhitespace).reverse

/-- Embedding of Python `str.strip`. -/
def trimStr (s : String) : String := String.mk (trimChars s.data)

/-- Substring test on character lists, Python's `needle in haystack`. -/
def containsSub (needle : List Char) : List Char → Bool
  | [] => needle.isPrefixOf []
  | c :: cs => needle.isPrefixOf (c :: cs) || containsSub needle cs

/-- Python `needle in text` on strings. -/
def containsTok (needle text : String) : Bool := containsSub needle.data text.data

/-- Regex word character, `\w` restricted to ASCII. -/
def isWordChar (c : Char) : Bool := c.isAlphanum || c = '_'

/-- Does `\bvs\b` match at the head of the remaining character list,
given the previous character (if any)? -/
def vsAt (prev : Option Char) : List Char → Bool
  | 'v' :: 's' :: rest =>
      (match prev with
        | none => true
        | some p => !isWordChar p) &&
      (match rest with
        | [] => true
        | c :: _ => !isWordChar c)
  | _ => false

/-- Scan for a `\bvs\b` match anywhere in the character list. -/
def hasVsWord : Option Char → List Char → Bool
  | _, [] => false
  | prev, c :: cs => vsAt prev (c :: cs) || hasVsWord (some c) cs

/-- Association-list update with Python-dict semantics: overwriting keeps
the key's original insertion position. -/
def alistSet {β : Type} (m : List (String × β)) (k : String) (v : β) :
    List (String × β) :=
  if (m.find? (fun p => p.1 == k)).isSome then
    m.map (fun p => if p.1 == k then (k, v) else p)
  else m ++ [(k, v)]

/-- Python `dict.get(k, dflt)` on an association list. -/
def alistGet {β : Type} (m : List (String × β)) (k : String) (dflt : β) : β :=
  match m.find? (fun p => p.1 == k) with
  | some p => p.2
  | none => dflt

namespace Ranking

/-! ## RankingService (src/src/services/ranking.py) -/

/-- Video metadata record, as consumed (duck-typed) by
`RankingService.score`: the fields of `services.youtube.YouTubeVideo`
plus `comment_count` and `published_at`, which `score` reads and the test
fixtures supply. -/
structure Video where
  video_id : String := ""
  title : String := ""
  description : String := ""
  url : String := ""
  channel_title : Option String := none
  duration : Option String := none
  view_count : Option Int := none
  like_count : Option Int := none
  comment_count : Option Int := none
  published_at : Option String := none
deriving DecidableEq, Repr

def MIN_DURATION_SECONDS : Nat := 15 * 60
def IDEAL_DURATION_SECONDS : Nat := 90 * 60
def DURATION_SPAN_SECONDS : Nat := 70 * 60
def SECONDS_PER_DAY : Nat := 86400
def THREE_YEARS_DAYS : Int := 365 * 3
def HALF_LIFE_AFTER_3Y_DAYS : Int := 365 * 4

/-- Digits of a decimal numeral to a natural number (Python `int(...)`
on a digit string). -/
def digitsToNat (ds : List Char) : Nat :=
  ds.foldl (fun acc c => acc * 10 + (c.toNat - 48)) 0

/-- Split a longest leading run of ASCII digits off a character list. -/
def takeDigits : List Char → List Char × List Char
  | [] => ([], [])
  | c :: cs =>
      if c.isDigit then
        let p := takeDigits cs
        (c :: p.1, p.2)
      else ([], c :: cs)

/-- One optional `(\d+)X` component of `ISO_DURATION_RE` (case
insensitive); on failure the input is left untouched, like a
non-participating regex group. -/
def parseComp (tag : Char) (cs : List Char) : Option Nat × List Char :=
  match takeDigits cs with
  | ([], _) => (none, cs)
  | (ds, rest) =>
      match rest with
      | [] => (none, cs)
      | c :: rest2 =>
          if c.toLower = tag then (some (digitsToNat ds), rest2) else (none, cs)

/-- Full match of `ISO_DURATION_RE` =
`P(?:(\d+)D)?(?:T(?:(\d+)H)?(?:(\d+)M)?(?:(\d+)S)?)?` (IGNORECASE):
returns the `(days, hours, minutes, seconds)` groups with absent groups
defaulted to `0`, or `none` when the whole string does not match. -/
def parseIsoDuration (s : String) : Option (Nat × Nat × Nat × Nat) :=
  match s.data with
  | [] => none
  | c :: rest =>
      if c.toLower = 'p' then
        let dd := parseComp 'd' rest
        match dd.2 with
        | [] => some (dd.1.getD 0, 0, 0, 0)
        | t :: r2 =>
            if t.toLower = 't' then
              let hh := parseComp 'h' r2
              let mm := parseComp 'm' hh.2
              let sc := parseComp 's' mm.2
              if sc.2 = [] then
                some (dd.1.getD 0, hh.1.getD 0, mm.1.getD 0, sc.1.getD 0)
              else none
            else none
      else none

/-- `RankingService._parse_duration_seconds`: missing or malformed
ISO-8601 durations yield `0`. -/
def parse_duration_seconds (iso_duration : Option String) : Nat :=
  match iso_duration with
  | none => 0
  | some s =>
      if s = "" then 0
      else
        match parseIsoDuration s with
        | none => 0
        | some (d, h, m, sec) => d * 24 * 3600 + h * 3600 + m * 60 + sec

/-- `RankingService._duration_boost` (the `deviation` and `x` locals
inlined). -/
noncomputable def duration_boost (seconds : Nat) : ℝ :=
  if seconds < MIN_DURATION_SECONDS then 0
  else 0.95 + 0.15 *
    max 0 (1 - |(seconds : ℝ) - (IDEAL_DURATION_SECONDS : ℝ)| /
      (DURATION_SPAN_SECONDS : ℝ))

/-- Parse exactly `n` ASCII digits. -/
def parseFixed (n : Nat) (cs : List Char) : Option (Nat × List Char) :=
  let pre := cs.take n
  if pre.length = n && pre.all Char.isDigit then some (digitsToNat pre, cs.drop n)
  else none

/-- Require one specific character. -/
def expectChar (c : Char) : List Char → Option (List Char)
  | x :: xs => if x = c then some xs else none
  | [] => none

/-- Days from the civil epoch 1970-01-01 (Gregorian), using truncating
integer division as the underlying C-style algorithm does. -/
def daysFromCivil (y : Int) (m d : Nat) : Int :=
  let y2 : Int := if m ≤ 2 then y - 1 else y
  let era : Int := (if 0 ≤ y2 then y2 else y2 - 399).tdiv 400
  let yoe : Int := y2 - era * 400
  let mp : Int := ((m : Int) + 9) % 12
  let doy : Int := ((153 * mp + 2).tdiv 5) + (d : Int) - 1
  let doe : Int := yoe * 365 + yoe.tdiv 4 - yoe.tdiv 100 + doy
  era * 146097 + doe - 719468

/-- Optional `±HH:MM` UTC offset (already normalised from a trailing
`Z`), in seconds. -/
def parseOffsetSecs : List Char → Option Int
  | [] => some 0
  | '+' :: cs =>
      match parseFixed 2 cs with
      | none => none
      | some (h, r1) =>
          match expectChar ':' r1 with
          | none => none
          | some r2 =>
              match parseFixed 2 r2 with
              | some (mi, []) => some ((h : Int) * 3600 + (mi : Int) * 60)
              | _ => none
  | '-' :: cs =>
      match parseFixed 2 cs with
      | none => none
      | some (h, r1) =>
          match expectChar ':' r1 with
          | none => none
          | some r2 =>
              match parseFixed 2 r2 with
              | some (mi, []) => some (-((h : Int) * 3600 + (mi : Int) * 60))
              | _ => none
  | _ => none

/-- Optional `:SS` seconds component. -/
def parseSecondsComp : List Char → Option (Nat × List Char)
  | ':' :: cs =>
      match parseFixed 2 cs with
      | none => none
      | some (s, r) => some (s, r)
  | cs => some (0, cs)

/-- `RankingService._parse_datetime`, normalising a trailing `Z` to
`+00:00` and accepting the `YYYY-MM-DD[THH:MM[:SS]][±HH:MM]` shapes of
`datetime.fromisoformat` that the video providers emit; the result is
seconds since the Unix epoch (UTC), `none` for a `ValueError`. -/
def parse_datetime_secs (value : String) : Option Int :=
  let n0 := trimChars value.data
  let n1 := match n0.getLast? with
    | some 'Z' => n0.dropLast ++ [ '+', '0', '0', ':', '0', '0' ]
    | _ => n0
  match parseFixed 4 n1 with
  | none => none
  | some (y, r1) =>
      match expectChar '-' r1 with
      | none => none
      | some r2 =>
          match parseFixed 2 r2 with
          | none => none
          | some (mo, r3) =>
              match expectChar '-' r3 with
              | none => none
              | some r4 =>
                  match parseFixed 2 r4 with
                  | none => none
                  | some (d, r5) =>
                      let date := daysFromCivil (y : Int) mo d
                      match r5 with
                      | [] => some (date * (SECONDS_PER_DAY : Int))
                      | sep :: r6 =>
                          if sep = 'T' || sep = ' ' then
                            match parseFixed 2 r6 with
                            | none => none
                            | some (h, r7) =>
                                match expectChar ':' r7 with
                                | none => none
                                | some r8 =>
                                    match parseFixed 2 r8 with
                                    | none => none
                                    | some (mi, r9) =>
                                        match parseSecondsComp r9 with
                                        | none => none
                                        | some (sec, r10) =>
                                            match parseOffsetSecs r10 with
                                            | none => none
                                            | some off =>
                                                some (date * (SECONDS_PER_DAY : Int) +
                                                  (h : Int) * 3600 + (mi : Int) * 60 +
                                                  (sec : Int) - off)
                          else none

/-- The `over` local of `_time_decay`: days beyond the three-year grace
period (with `delta_days = max(0, (now - published) // 86400)` inlined). -/
def over_days (now pub : Int) : Int :=
  max 0 (max 0 ((now - pub).fdiv (SECONDS_PER_DAY : Int)) - THREE_YEARS_DAYS)

/-- `RankingService._time_decay` with `datetime.now` supplied as `now`
(seconds since the Unix epoch). -/
noncomputable def time_decay (now : Int) (published_at : Option String) : ℝ :=
  match published_at with
  | none => 1.0
  | some v =>
      if v = "" then 1.0
      else
        match parse_datetime_secs v with
        | none => 1.0
        | some pub =>
            if over_days now pub ≤ 0 then 1.0
            else Real.exp (-(Real.log 2) *
              ((over_days now pub : ℝ) / (HALF_LIFE_AFTER_3Y_DAYS : ℝ)))

def SEMANTIC_KEYWORDS : List String :=
  ["tutorial", "course", "full course", "project", "end to end",
   "from scratch", "hands on", "hands-on", "beginner", "for beginners"]

/-- The lowercased `f"{title or ''} {description or ''}"` text scanned
by `_semantic_boost`. -/
def sem_text (title description : String) : String :=
  lowerStr (title ++ " " ++ description)

/-- `bool(skill_name and skill_name.lower() in text)`. -/
def sem_skill_hit (text : String) : Option String → Bool
  | none => false
  | some sk => if sk = "" then false else containsTok (lowerStr sk) text

/-- Count of matched single-word keywords. -/
def sem_hits (text : String) : Nat :=
  (SEMANTIC_KEYWORDS.filter
    (fun k => !(containsTok " " k) && containsTok k text)).length

/-- Count of matched multi-word phrases. -/
def sem_phrases (text : String) : Nat :=
  (SEMANTIC_KEYWORDS.filter
    (fun k => containsTok " " k && containsTok k text)).length

/-- The `re.search(r"\bvs\b|versus|compare", text)` comparison test. -/
def sem_vs (text : String) : Bool :=
  hasVsWord none text.data || containsTok "versus" text ||
    containsTok "compare" text

/-- `RankingService._semantic_boost` (the running `boost` local written
as the product it computes). -/
noncomputable def semantic_boost (title description : String)
    (skill_name : Option String) : ℝ :=
  (if sem_skill_hit (sem_text title description) skill_name then 1.10 else 1.0) *
    (1 + min 0.12 ((sem_hits (sem_text title description) : ℝ) * 0.02)) *
    (1 + min 0.10 ((sem_phrases (sem_text title description) : ℝ) * 0.05)) *
    (if sem_vs (sem_text title description) then 0.95 else 1.0)

/-- `services.channel_defaults.DEFAULT_CHANNEL_SUGGESTIONS`. -/
noncomputable def DEFAULT_CHANNEL_SUGGESTIONS : List (String × ℝ) :=
  [("freeCodeCamp.org", 1.10), ("Tech With Tim", 1.10),
   ("TechWithTim", 1.10), ("IBM Technology", 1.10)]

/-- `services.channel_defaults.default_channel_boost_map`. -/
noncomputable def default_channel_boost_map : List (String × ℝ) :=
  DEFAULT_CHANNEL_SUGGESTIONS.foldl
    (fun acc item =>
      let name := lowerStr (trimStr item.1)
      if name = "" ∨ item.2 ≤ 0 then acc else alistSet acc name item.2)
    []

/-- One iteration of the `_sanitize_boosts` loop: skip falsy names and
non-positive multipliers, then store under the stripped lowercased key. -/
noncomputable def sanitize_step (acc : List (String × ℝ)) (p : String × ℝ) :
    List (String × ℝ) :=
  if p.1 = "" then acc
  else if p.2 ≤ 0 then acc
  else alistSet acc (lowerStr (trimStr p.1)) p.2

/-- `RankingService._sanitize_boosts`.  (The `float(value)` coercion is
the identity here because the map is already real-valued.) -/
noncomputable def sanitize_boosts (boosts : List (String × ℝ)) :
    List (String × ℝ) :=
  boosts.foldl sanitize_step []

/-- The default boost map held by a `RankingService()` instance:
`_sanitize_boosts(DEFAULT_CHANNEL_BOOSTS)`. -/
noncomputable def service_default_boosts : List (String × ℝ) :=
  sanitize_boosts default_channel_boost_map

/-- `RankingService._channel_boost`. -/
noncomputable def channel_boost (default_boosts : List (String × ℝ))
    (channel_title : Option String)
    (user_channel_boosts : Option (List (String × ℝ))) : ℝ :=
  let name := lowerStr (trimStr (channel_title.getD ""))
  if name = "" then 1.0
  else
    match user_channel_boosts with
    | some user => alistGet user name 1.0
    | none => alistGet default_boosts name 1.0

/-- `max(video.view_count or 0, 0)`. -/
def viewsOf (video : Video) : Int := max (video.view_count.getD 0) 0

/-- `max(video.like_count or 0, 0)`. -/
def likesOf (video : Video) : Int := max (video.like_count.getD 0) 0

/-- `max(video.comment_count or 0, 0)`. -/
def commentsOf (video : Video) : Int := max (video.comment_count.getD 0) 0

/-- `like_ratio = (likes / views) if views > 0 else 0.0`. -/
noncomputable def like_fraction (video : Video) : ℝ :=
  if 0 < viewsOf video then (likesOf video : ℝ) / (viewsOf video : ℝ) else 0.0

/-- `base_score = like_ratio * 10000 + views / 1000 + comments * 2`. -/
noncomputable def base_of (video : Video) : ℝ :=
  like_fraction video * 10000 + (viewsOf video : ℝ) / 1000 +
    (commentsOf video : ℝ) * 2

/-- `RankingService.score` (locals inlined). -/
noncomputable def score (default_boosts : List (String × ℝ)) (now : Int)
    (video : Video) (skill_name : Option String)
    (user_channel_boosts : Option (List (String × ℝ))) : Option ℝ :=
  if duration_boost (parse_duration_seconds video.duration) = 0 then none
  else
    some (base_of video *
      duration_boost (parse_duration_seconds video.duration) *
      time_decay now video.published_at *
      channel_boost default_boosts video.channel_title user_channel_boosts *
      semantic_boost video.title video.description skill_name)

/-- `RankingService.top_videos` (Python `list.sort` is a stable sort;
`insertionSort` with the reflexive "score not smaller" relation places
earlier-listed videos first on ties, exactly as a stable descending sort
does). -/
noncomputable def top_videos (default_boosts : List (String × ℝ)) (now : Int)
    (videos : List Video) (limit : Nat) (skill_name : Option String)
    (user_channel_boosts : Option (List (String × ℝ))) : List Video :=
  let boosts := user_channel_boosts.map sanitize_boosts
  let ranked := videos.filterMap
    (fun v => (score default_boosts now v skill_name boosts).map (fun sc => (v, sc)))
  let sorted := ranked.insertionSort (fun a b => b.2 ≤ a.2)
  (sorted.take limit).map (fun p => p.1)

/-- A minimal concrete video for counterexamples and witnesses: a
90-minute tutorial with no channel, empty text and no timestamp, so that
every multiplier except the engagement base is the neutral value. -/
def plainVid (vc lc cc : Int) : Video :=
  { duration := some "PT90M", view_count := some vc,
    like_count := some lc, comment_count := some cc }

/-- Pointwise comparison of two optional scores: both rejected, or both
scored with the first not larger. -/
def optionLE : Option ℝ → Option ℝ → Prop
  | none, none => True
  | some a, some b => a ≤ b
  | _, _ => False

end Ranking

namespace Orch

/-! ## Orchestrator data model (src/src/app/schemas.py, orchestrator/state.py) -/

abbrev Video := Ranking.Video

/-- `app.schemas.AnalysisStatus`. -/
inductive AnalysisStatus
  | PENDING
  | RUNNING
  | AWAITING_APPROVAL
  | COMPLETED
  | FAILED
deriving DecidableEq, Repr

/-- `app.schemas.CvAnalysisLLMResponse`. -/
structure CvAnalysis where
  companyName : List String := []
  jobTitle : List String := []
  hardSkills : List String := []
  softSkills : List String := []
  criticalRequirements : List String := []
deriving DecidableEq, Repr

/-- `app.schemas.CvScoreLLMResponse`. -/
structure CvScore where
  overallScore : Int := 0
  hardSkillsScore : Int := 0
  softSkillsScore : Int := 0
  matchedHardSkills : List String := []
  matchedSoftSkills : List String := []
  missingHardSkills : List String := []
  missingSoftSkills : List String := []
  strengths : List String := []
  weaknesses : List String := []
  criticalReqScore : Option Int := none
deriving DecidableEq, Repr

/-- `app.schemas.ImprovementReformulation`. -/
structure ImprovementReformulation where
  original : String
  improved : String
  reason : String
deriving DecidableEq, Repr

/-- `app.schemas.ImprovementRemoval`. -/
structure ImprovementRemoval where
  text : String
  reason : String
  alternative : String
deriving DecidableEq, Repr

/-- `app.schemas.ImprovementAddition` (`section` is a Lean keyword, hence
`sectionName`). -/
structure ImprovementAddition where
  sectionName : String
  content : String
  reason : String
deriving DecidableEq, Repr

/-- `app.schemas.ImprovementPlan`. -/
structure ImprovementPlan where
  reformulations : List ImprovementReformulation := []
  removals : List ImprovementRemoval := []
  additions : List ImprovementAddition := []
deriving DecidableEq, Repr

/-- `app.schemas.TutorialAnalysis`. -/
structure TutorialAnalysis where
  summary : String := ""
  keyPoints : List String := []
  difficultyLevel : String := ""
  prerequisites : List String := []
  practicalTakeaways : List String := []
deriving DecidableEq, Repr

/-- `app.schemas.TutorialSuggestion`. -/
structure TutorialSuggestion where
  tutorialTitle : String
  tutorialUrl : String
  personalizationTip : String
  analysis : Option TutorialAnalysis := none
deriving DecidableEq, Repr

/-- `app.schemas.ProjectSuggestion`. -/
structure ProjectSuggestion where
  skill : String
  projects : List TutorialSuggestion
deriving DecidableEq, Repr

/-- `app.schemas.MvpProject`. -/
structure MvpProject where
  tutorialTitle : String := ""
  tutorialUrl : String := ""
  skillsCombined : List String := []
  personalizationTip : String := ""
  cvBlurb : String := ""
  estimatedBuildTime : String := ""
  roleFitNote : String := ""
deriving DecidableEq, Repr

/-- `orchestrator.state.SkillQuery`. -/
structure SkillQuery where
  skill : String
  query : String
deriving DecidableEq, Repr

/-- One entry of the `preferred_channels` list (a `{"name", "boost"}`
dict). -/
structure ChannelEntry where
  name : String
  boost : ℚ
deriving DecidableEq, Repr

/-- `orchestrator.state.GraphState`: a `total=False` TypedDict; `none`
models an absent (or `None`-valued) key, matching the `state.get`
truthiness guards used throughout the nodes. -/
structure GraphState where
  analysis_id : Option String := none
  email : Option String := none
  cv_doc_id : Option String := none
  job_description : Option String := none
  job_description_url : Option String := none
  cv_text : Option String := none
  jd_text : Option String := none
  cv_analysis : Option CvAnalysis := none
  score : Option CvScore := none
  improvements : Option ImprovementPlan := none
  skill_queries : Option (List SkillQuery) := none
  project_suggestions : Option (List ProjectSuggestion) := none
  mvp_projects : Option (List MvpProject) := none
  awaiting_approval : Option Bool := none
  approval_token : Option String := none
  approval_granted : Option Bool := none
  preferred_channels : Option (List ChannelEntry) := none
deriving DecidableEq, Repr

/-- Python truthiness of an optional string. -/
def truthyS : Option String → Bool
  | none => false
  | some s => !(s = "")

/-- Python truthiness of an optional bool. -/
def truthyB : Option Bool → Bool
  | none => false
  | some b => b

/-- Python truthiness of an optional list. -/
def truthyL {α : Type} : Option (List α) → Bool
  | none => false
  | some [] => false
  | some (_ :: _) => true

/-- The dict built by `OrchestratorRunner._state_to_payload`. -/
structure StatePayload where
  analysis_id : Option String := none
  email : Option String := none
  cv_doc_id : Option String := none
  job_description : Option String := none
  job_description_url : Option String := none
  cv_text : Option String := none
  jd_text : Option String := none
  awaiting_approval : Bool := false
  approval_token : Option String := none
  approval_granted : Bool := false
  cv_analysis : Option CvAnalysis := none
  score : Option CvScore := none
  improvements : Option ImprovementPlan := none
  project_suggestions : Option (List ProjectSuggestion) := none
deriving DecidableEq, Repr

/-- A status-log payload: one constructor per JSON shape the source
stores (`_state_to_payload`, the ingest echo, the approval-email summary,
the recalc summary, and the empty dict used when no payload is given and
none exists yet). -/
inductive Payload
  | runnerP (p : StatePayload)
  | ingestP (email : String) (cvDocId : String) (jobDescription : String)
      (jobDescriptionUrl : Option String)
  | emailP (cvAnalysis : Option CvAnalysis) (score : Option CvScore)
      (projectSuggestions : List ProjectSuggestion) (mvpProjects : List MvpProject)
  | recalcP (cvAnalysis : Option CvAnalysis) (score : CvScore)
      (improvements : Option ImprovementPlan)
      (projectSuggestions : List ProjectSuggestion) (mvpProjects : List MvpProject)
  | emptyP
deriving DecidableEq, Repr

/-- One per-video row of the `video_rankings` artifact built in
`yt_branch` (the float score is rational in the model). -/
structure RankRow where
  rank : Nat
  score : ℚ
  videoId : String
  title : String
  url : String
  channelTitle : Option String
  duration : Option String
  viewCount : Option Int
  likeCount : Option Int
  commentCount : Option Int
  publishedAt : Option String
  personalizationTip : String
  analysis : Option TutorialAnalysis
deriving DecidableEq, Repr

/-- Artifact content, one constructor per `save_artifact` call site. -/
inductive Artifact
  | text (s : String)
  | analysisA (a : CvAnalysis)
  | scoreA (s : CvScore)
  | planA (p : ImprovementPlan)
  | suggestionsA (l : List ProjectSuggestion)
  | mvpA (l : List MvpProject)
  | rankingsA (l : List (String × List RankRow))
deriving DecidableEq, Repr

/-- A `node_events` row (`StorageService.record_node_event`); `output =
none` models the empty `{}` snapshot recorded for failures. -/
structure NodeEvent where
  analysis_id : String
  node_name : String
  state_before : GraphState
  output : Option GraphState
  started_at : Nat
  error : Option String
deriving DecidableEq, Repr

/-- An `analysis_status_log` row; `recorded_at` is a logical clock
standing for the wall-clock insert timestamp. -/
structure StatusRow where
  analysis_id : String
  status : AnalysisStatus
  payload : Payload
  last_error : Option String
  recorded_at : Nat
deriving DecidableEq, Repr

/-- An `analyses` row. -/
structure AnalysisRow where
  id : String
  email : String
  cv_doc_id : String
  approval_token : Option String := none
deriving DecidableEq, Repr

/-- An email handed to `GmailService.send_html`. -/
structure EmailMsg where
  toAddr : String
  subject : String
  html : String
deriving DecidableEq, Repr

/-- The record returned by `StorageService.get_analysis` (the
`analysis_latest` view: the `analyses` row joined with the most recent
status-log row). -/
structure AnalysisRecord where
  email : String
  cv_doc_id : String
  status : AnalysisStatus
  payload : Payload
  approval_token : Option String
  last_error : Option String
deriving DecidableEq, Repr

/-- Storage state plus the trace of every externally visible effect; the
collaborator-call logs model the call-count assertions the spec asks fakes
to carry.  `recordFaults` is a fault-injection plan for
`record_node_event`: each call consumes one entry (`some msg` makes that
call raise, `none` lets it succeed); an empty plan means telemetry always
succeeds. -/
structure World where
  analyses : List AnalysisRow := []
  inputs : List (String × Payload) := []
  statusLog : List StatusRow := []
  artifacts : List (String × String × Artifact) := []
  nodeEvents : List NodeEvent := []
  emails : List EmailMsg := []
  docPrepends : List (String × String) := []
  searches : List (String × Nat) := []
  fetches : List String := []
  driveExports : List String := []
  llmAlignCalls : List (String × String) := []
  llmScoreCalls : List (String × String) := []
  llmImproveCalls : List (String × String) := []
  llmMvpCalls : Nat := 0
  geminiCalls : List String := []
  metaLookups : List String := []
  recordFaults : List (Option String) := []
  clock : Nat := 0
deriving DecidableEq, Repr

/-- `orchestrator.exceptions` plus the built-in exceptions the nodes can
raise: `ApprovalPendingError` (carrying the state), `ValueError`,
`KeyError` on a missing state key, and a storage-layer error used for
telemetry fault injection. -/
inductive Err
  | approvalPending (analysis_id : String) (st : Option GraphState)
  | valueError (msg : String)
  | keyError (key : String)
  | storageError (msg : String)
deriving DecidableEq, Repr

/-- Python `str(exc)`. -/
def Err.message : Err → String
  | .approvalPending aid _ => "Analysis " ++ aid ++ " is awaiting approval"
  | .valueError m => m
  | .keyError k => "'" ++ k ++ "'"
  | .storageError m => m

/-- Read a required state key (`state["k"]`), raising `KeyError` when it
is absent. -/
def getReq {α : Type} (v : Option α) (key : String) : Except Err α :=
  match v with
  | some x => Except.ok x
  | none => Except.error (Err.keyError key)

/-! ## Storage operations (src/src/services/storage.py) -/

/-- `StorageService.create_analysis`: upsert the `analyses` row, replace
the input payload, and append a `PENDING` status-log row. -/
def World.create_analysis (w : World) (analysis_id email cv_doc_id : String)
    (payload : Payload) : World :=
  let analyses :=
    if (w.analyses.find? (fun r => r.id == analysis_id)).isSome then
      w.analyses.map (fun r =>
        if r.id == analysis_id then
          { r with email := email, cv_doc_id := cv_doc_id }
        else r)
    else w.analyses ++ [{ id := analysis_id, email := email, cv_doc_id := cv_doc_id }]
  let inputs := (w.inputs.filter (fun p => !(p.1 == analysis_id))) ++ [(analysis_id, payload)]
  { w with
      analyses := analyses
      inputs := inputs
      statusLog := w.statusLog ++
        [{ analysis_id := analysis_id, status := AnalysisStatus.PENDING,
           payload := payload, last_error := none, recorded_at := w.clock }]
      clock := w.clock + 1 }

/-- One step of the maximal-`recorded_at` scan over the status log. -/
def latestStep (analysis_id : String) (acc : Option StatusRow) (r : StatusRow) :
    Option StatusRow :=
  if r.analysis_id == analysis_id then
    match acc with
    | none => some r
    | some best => if best.recorded_at ≤ r.recorded_at then some r else some best
  else acc

/-- The most recent status-log row for an id: the row with the maximal
`recorded_at` (the `analysis_latest` view / the `ORDER BY
datetime(recorded_at) DESC LIMIT 1` query), later rows winning ties. -/
def latestRow (w : World) (analysis_id : String) : Option StatusRow :=
  w.statusLog.foldl (latestStep analysis_id) none

/-- `StorageService.update_status`: append a status-log row; a missing
payload is resolved to the most recent stored payload (or `{}`). -/
def World.update_status (w : World) (analysis_id : String)
    (status : AnalysisStatus) (payload : Option Payload)
    (last_error : Option String := none) : World :=
  let pay :=
    match payload with
    | some p => p
    | none =>
        match latestRow w analysis_id with
        | some r => r.payload
        | none => Payload.emptyP
  { w with
      statusLog := w.statusLog ++
        [{ analysis_id := analysis_id, status := status, payload := pay,
           last_error := last_error, recorded_at := w.clock }]
      clock := w.clock + 1 }

/-- `StorageService.get_analysis` via the `analysis_latest` view. -/
def World.get_analysis (w : World) (analysis_id : String) :
    Option AnalysisRecord :=
  match w.analyses.find? (fun r => r.id == analysis_id), latestRow w analysis_id with
  | some row, some srow =>
      some { email := row.email, cv_doc_id := row.cv_doc_id,
             status := srow.status, payload := srow.payload,
             approval_token := row.approval_token, last_error := srow.last_error }
  | _, _ => none

/-- `StorageService.save_artifact`. -/
def World.save_artifact (w : World) (analysis_id artifact_type : String)
    (content : Artifact) : World :=
  { w with artifacts := w.artifacts ++ [(analysis_id, artifact_type, content)],
           clock := w.clock + 1 }

/-- `StorageService.set_approval_token` (an UPDATE of the `analyses`
row). -/
def World.set_approval_token (w : World) (analysis_id token : String) : World :=
  { w with analyses := w.analyses.map (fun r =>
      if r.id == analysis_id then { r with approval_token := some token } else r) }

/-- `StorageService.record_node_event`, with fault injection: consumes
the head of `recordFaults`; `some msg` makes the INSERT raise. -/
def World.record_node_event (w : World) (analysis_id node_name : String)
    (state_before : GraphState) (output : Option GraphState)
    (started_at : Nat) (error : Option String) : Except Err Unit × World :=
  match w.recordFaults with
  | some msg :: rest =>
      (Except.error (Err.storageError msg), { w with recordFaults := rest })
  | none :: rest =>
      (Except.ok (), { w with
          recordFaults := rest
          nodeEvents := w.nodeEvents ++
            [{ analysis_id := analysis_id, node_name := node_name,
               state_before := state_before, output := output,
               started_at := started_at, error := error }]
          clock := w.clock + 1 })
  | [] =>
      (Except.ok (), { w with
          nodeEvents := w.nodeEvents ++
            [{ analysis_id := analysis_id, node_name := node_name,
               state_before := state_before, output := output,
               started_at := started_at, error := error }]
          clock := w.clock + 1 })

/-- Well-formedness of the status log relative to the logical clock for
one analysis id: every stored row predates the clock, so a fresh append
is guaranteed to become the most recent row. -/
def WFp (w : World) (analysis_id : String) : Prop :=
  ∀ r ∈ w.statusLog, r.analysis_id = analysis_id → r.recorded_at < w.clock

/-! ## Collaborator oracles (external interfaces, deterministic) -/

/-- The two `Settings` fields the pipeline reads. -/
structure Settings where
  review_secret : String := ""
  frontend_base_url : String := ""

/-- `services.gemini.VideoAnalysis`. -/
structure GeminiAnalysis where
  summary : String := ""
  key_points : List String := []
  difficulty_level : String := ""
  prerequisites : List String := []
  practical_takeaways : List String := []
deriving DecidableEq, Repr

/-- The metadata dict returned by
`StorageService.get_youtube_video_metadata`, restricted to the keys
`yt_branch._analysis_from_metadata` reads. -/
structure VideoMeta where
  summary : Option String := none
  key_points : List String := []
  difficulty_level : Option String := none
  prerequisites : List String := []
  takeaways : List String := []
deriving DecidableEq, Repr

/-- One tutorial-catalog entry built in `mvp_projects.generate_mvp`. -/
structure CatalogEntry where
  skill : String
  tutorialTitle : String
  tutorialUrl : String
  personalizationTip : String
deriving DecidableEq, Repr

/-- `app.schemas.AnalysisRequest`. -/
structure AnalysisRequest where
  email : String
  cvDocId : String
  jobDescription : Option String := none
  jobDescriptionUrl : Option String := none
deriving DecidableEq, Repr

/-- The injected collaborators (`orchestrator.state.NodeDeps`) as
deterministic oracle functions.  Every oracle is total: the claims under
verification all presuppose collaborator calls that succeed (collaborator
failures are surfaced unchanged by the nodes and are out of the claims'
scope); `render` abstracts the Jinja template expansion to a function of
the template name and the analysis id, and `sign_token` abstracts the
`URLSafeSerializer` token for an analysis id. -/
structure Deps where
  settings : Settings := {}
  export_doc_text : String → String := fun _ => ""
  fetch_url : String → String := fun _ => ""
  analyze_alignment : String → String → CvAnalysis := fun _ _ => {}
  score_cv : String → String → Option CvAnalysis → CvScore := fun _ _ _ => {}
  improvement_plan : String → String → CvScore → ImprovementPlan := fun _ _ _ => {}
  generate_mvp_projects :
    List String → List CatalogEntry → String → String → List MvpProject :=
      fun _ _ _ _ => []
  render : String → String → String := fun t _ => t
  sign_token : String → String := fun aid => "token-" ++ aid
  youtube : Option (String → Nat → List Video) := none
  gemini : Option (String → Option GeminiAnalysis) := none
  ranked_videos :
    List Video → Nat → Option String → List (String × ℚ) → List (Video × ℚ) :=
      fun _ _ _ _ => []
  video_metadata : String → Option VideoMeta := fun _ => none

/-- Modelled from the spec: `RankingService.ranked_videos`, the ranking
method that `orchestrator.nodes.yt_branch` calls and the repository's
tests exercise, is absent from `src/services/ranking.py`; following spec
§4.1 (`rank(videos, limit, skill_name?, channel_boosts?) -> ordered list
of (video, score)` descending by score, ties broken by stable input
order, rejected videos dropped), it is reconstructed here over an
abstract per-video scoring function. -/
def ranked_videos_spec
    (scoreFn : Video → Option String → List (String × ℚ) → Option ℚ)
    (videos : List Video) (limit : Nat) (skill_name : Option String)
    (boosts : List (String × ℚ)) : List (Video × ℚ) :=
  let ranked := videos.filterMap
    (fun v => (scoreFn v skill_name boosts).map (fun sc => (v, sc)))
  (ranked.insertionSort (fun a b => b.2 ≤ a.2)).take limit

/-! ## Runner payload conversion (orchestrator/runner.py) -/

/-- `OrchestratorRunner._state_to_payload` (a pydantic model is always
truthy, so the model fields are included iff present; the
`project_suggestions` list only when non-empty). -/
def state_to_payload (s : GraphState) : StatePayload :=
  { analysis_id := s.analysis_id
    email := s.email
    cv_doc_id := s.cv_doc_id
    job_description := s.job_description
    job_description_url := s.job_description_url
    cv_text := s.cv_text
    jd_text := s.jd_text
    awaiting_approval := s.awaiting_approval.getD false
    approval_token := s.approval_token
    approval_granted := s.approval_granted.getD false
    cv_analysis := s.cv_analysis
    score := s.score
    improvements := s.improvements
    project_suggestions :=
      match s.project_suggestions with
      | some (x :: xs) => some (x :: xs)
      | _ => none }

/-- `OrchestratorRunner._payload_to_state` applied to a runner payload. -/
def runner_payload_to_state (p : StatePayload) : GraphState :=
  { job_description := p.job_description
    job_description_url := p.job_description_url
    cv_text := p.cv_text
    jd_text := p.jd_text
    awaiting_approval := some p.awaiting_approval
    approval_token := p.approval_token
    approval_granted := some p.approval_granted
    cv_analysis := p.cv_analysis
    score := p.score
    improvements := p.improvements
    project_suggestions :=
      match p.project_suggestions with
      | some (x :: xs) => some (x :: xs)
      | _ => none }

/-- `OrchestratorRunner._payload_to_state` on an arbitrary stored
payload: dict-key lookups with defaults, so non-runner payload shapes
contribute only the keys whose names coincide (`score` and
`improvements` in the recalc shape, `score` in the email shape; the
camel-cased keys do not match). -/
def payload_to_state : Payload → GraphState
  | .runnerP p => runner_payload_to_state p
  | .ingestP _ _ _ _ =>
      { job_description := some "", cv_text := some "", jd_text := some "",
        awaiting_approval := some false, approval_granted := some false }
  | .emailP _ sc _ _ =>
      { job_description := some "", cv_text := some "", jd_text := some "",
        awaiting_approval := some false, approval_granted := some false,
        score := sc }
  | .recalcP _ sc imp _ _ =>
      { job_description := some "", cv_text := some "", jd_text := some "",
        awaiting_approval := some false, approval_granted := some false,
        score := some sc, improvements := imp }
  | .emptyP =>
      { job_description := some "", cv_text := some "", jd_text := some "",
        awaiting_approval := some false, approval_granted := some false }

/-! ## Nodes (src/src/orchestrator/nodes) -/

def MAX_DOC_BYTES : Nat := 10 * 1024 * 1024

/-- Python `" - ".join(...)` / `"".join(...)`. -/
def joinSep (sep : String) : List String → String
  | [] => ""
  | [x] => x
  | x :: y :: rest => x ++ sep ++ joinSep sep (y :: rest)

/-- `email._first_non_empty`, also the job-title selection loop of
`build_queries`: the first entry that is non-empty after stripping,
returned stripped. -/
def first_non_empty : List String → String
  | [] => ""
  | v :: rest =>
      let stripped := trimStr v
      if stripped = "" then first_non_empty rest else stripped

/-- The job-description text that `merge_jd` resolves for a kickoff
request: the stripped inline text, or the fetched URL body when the
inline text is empty and a URL is present. -/
def mergedJD (deps : Deps) (req : AnalysisRequest) : String :=
  if trimStr (req.jobDescription.getD "") = "" ∧ truthyS req.jobDescriptionUrl then
    deps.fetch_url (req.jobDescriptionUrl.getD "")
  else trimStr (req.jobDescription.getD "")

/-- The world effect of `merge_jd`'s optional URL fetch for a kickoff
request. -/
def mergeWorld (_deps : Deps) (req : AnalysisRequest) (w : World) : World :=
  if trimStr (req.jobDescription.getD "") = "" ∧ truthyS req.jobDescriptionUrl then
    { w with fetches := w.fetches ++ [req.jobDescriptionUrl.getD ""] }
  else w

/-- `nodes.ingest.build_node`: record `RUNNING` with an echo of the
request, then initialise the two suggestion lists. -/
def ingest (_deps : Deps) (s : GraphState) (w : World) :
    Except Err GraphState × World :=
  match s.analysis_id, s.email, s.cv_doc_id with
  | some aid, some email, some cvdoc =>
      let w1 := w.update_status aid AnalysisStatus.RUNNING
        (some (Payload.ingestP email cvdoc (s.job_description.getD "")
          s.job_description_url))
      (Except.ok { s with project_suggestions := some [], mvp_projects := some [] }, w1)
  | none, _, _ => (Except.error (Err.keyError "analysis_id"), w)
  | some _, none, _ => (Except.error (Err.keyError "email"), w)
  | some _, some _, none => (Except.error (Err.keyError "cv_doc_id"), w)

/-- `nodes.drive_export.build_node` (inner function, wrapped by
`instrument_node` below). -/
def drive_export (deps : Deps) (s : GraphState) (w : World) :
    Except Err GraphState × World :=
  if truthyS s.cv_text then (Except.ok s, w)
  else
    match s.analysis_id, s.cv_doc_id with
    | some aid, some cvdoc =>
        let cv_text := deps.export_doc_text cvdoc
        let w1 := { w with driveExports := w.driveExports ++ [cvdoc] }
        if MAX_DOC_BYTES < cv_text.utf8ByteSize then
          (Except.error (Err.valueError "CV document exceeds 10 MB export limit"), w1)
        else
          (Except.ok { s with cv_text := some cv_text },
           w1.save_artifact aid "cv_text" (Artifact.text cv_text))
    | none, _ => (Except.error (Err.keyError "analysis_id"), w)
    | some _, none => (Except.error (Err.keyError "cv_doc_id"), w)

/-- `nodes.merge_jd.build_node` (inner function; the `jd_text` local and
the fetch branch are distributed over the two cases of the fetch
condition). -/
def merge_jd (deps : Deps) (s : GraphState) (w : World) :
    Except Err GraphState × World :=
  match s.analysis_id with
  | none => (Except.error (Err.keyError "analysis_id"), w)
  | some aid =>
      if trimStr (s.job_description.getD "") = "" ∧
          truthyS s.job_description_url then
        if deps.fetch_url (s.job_description_url.getD "") = "" then
          (Except.error (Err.valueError "No job description provided"),
           { w with fetches := w.fetches ++ [s.job_description_url.getD ""] })
        else
          (Except.ok { s with
              jd_text := some (deps.fetch_url (s.job_description_url.getD "")) },
           ({ w with fetches := w.fetches ++ [s.job_description_url.getD ""] }
             ).save_artifact aid "jd_text"
               (Artifact.text (deps.fetch_url (s.job_description_url.getD ""))))
      else
        if trimStr (s.job_description.getD "") = "" then
          (Except.error (Err.valueError "No job description provided"), w)
        else
          (Except.ok { s with
              jd_text := some (trimStr (s.job_description.getD "")) },
           w.save_artifact aid "jd_text"
             (Artifact.text (trimStr (s.job_description.getD ""))))

/-- `nodes.jd_analyze.build_node` (not instrumented in the source). -/
def jd_analyze (deps : Deps) (s : GraphState) (w : World) :
    Except Err GraphState × World :=
  if s.cv_analysis.isSome then (Except.ok s, w)
  else
    match s.analysis_id, s.cv_text, s.jd_text with
    | some aid, some cvt, some jdt =>
        let analysis := deps.analyze_alignment cvt jdt
        let w1 := { w with llmAlignCalls := w.llmAlignCalls ++ [(cvt, jdt)] }
        (Except.ok { s with cv_analysis := some analysis },
         w1.save_artifact aid "cv_analysis" (Artifact.analysisA analysis))
    | none, _, _ => (Except.error (Err.keyError "analysis_id"), w)
    | some _, none, _ => (Except.error (Err.keyError "cv_text"), w)
    | some _, some _, none => (Except.error (Err.keyError "jd_text"), w)

/-- `nodes.cv_score.build_node` (not instrumented in the source). -/
def cv_score (deps : Deps) (s : GraphState) (w : World) :
    Except Err GraphState × World :=
  if s.score.isSome && s.improvements.isSome then (Except.ok s, w)
  else
    match s.analysis_id, s.cv_text, s.jd_text with
    | some aid, some cvt, some jdt =>
        let sc := deps.score_cv cvt jdt s.cv_analysis
        let w1 := { w with llmScoreCalls := w.llmScoreCalls ++ [(cvt, jdt)] }
        let imp := deps.improvement_plan cvt jdt sc
        let w2 := { w1 with llmImproveCalls := w1.llmImproveCalls ++ [(cvt, jdt)] }
        let w3 := w2.save_artifact aid "cv_score" (Artifact.scoreA sc)
        let w4 := w3.save_artifact aid "cv_improvements" (Artifact.planA imp)
        (Except.ok { s with score := some sc, improvements := some imp }, w4)
    | none, _, _ => (Except.error (Err.keyError "analysis_id"), w)
    | some _, none, _ => (Except.error (Err.keyError "cv_text"), w)
    | some _, some _, none => (Except.error (Err.keyError "jd_text"), w)

/-- The skill-query list computed by `nodes.build_queries`: missing
hard skills (falling back to the analysis hard skills), each paired with
a query mentioning the first non-empty job title, with a generic default
when nothing is missing. -/
def skill_queries_of (score : Option CvScore) (cv_analysis : Option CvAnalysis) :
    List SkillQuery :=
  let missing0 :=
    match score with
    | some sc => sc.missingHardSkills
    | none => []
  let missing :=
    if missing0 = [] ∧ cv_analysis.isSome then
      missing0 ++ ((cv_analysis.getD {}).hardSkills.take 5)
    else missing0
  let job_title :=
    match cv_analysis with
    | some a => first_non_empty a.jobTitle
    | none => ""
  let qs : List SkillQuery := missing.map (fun skill =>
    { skill := skill,
      query := skill ++ " tutorial project for " ++
        (if job_title = "" then "the role" else job_title) })
  if qs = [] then
    [({ skill := "general",
        query := "software engineering portfolio tutorial" } : SkillQuery)]
  else qs

/-- `nodes.build_queries.build_node` (inner function). -/
def build_queries (_deps : Deps) (s : GraphState) (w : World) :
    Except Err GraphState × World :=
  (Except.ok { s with
      skill_queries := some (skill_queries_of s.score s.cv_analysis) }, w)

/-- `services.channel_defaults.clone_default_channel_list`. -/
def clone_default_channel_list : List ChannelEntry :=
  [⟨"freeCodeCamp.org", 1.10⟩, ⟨"Tech With Tim", 1.10⟩,
   ⟨"TechWithTim", 1.10⟩, ⟨"IBM Technology", 1.10⟩]

/-- `nodes.yt_branch._preferred_channel_map`. -/
def preferred_channel_map (entries : List ChannelEntry) : List (String × ℚ) :=
  entries.foldl
    (fun acc entry =>
      let name := lowerStr (trimStr entry.name)
      if name = "" then acc
      else if entry.boost ≤ 0 then acc
      else alistSet acc name entry.boost)
    []

/-- `nodes.yt_branch._personalization_tip` (an absent channel title
renders as Python's `None`). -/
def personalization_tip (skill : String) (video : Video) : String :=
  "Build a highlight around " ++ skill ++ " referencing " ++
    (match video.channel_title with
      | some c => c
      | none => "None") ++
    "; cite metrics from the tutorial to prove hands-on experience."

/-- `nodes.yt_branch._analysis_from_metadata`. -/
def analysis_from_metadata : Option VideoMeta → Option TutorialAnalysis
  | none => none
  | some m =>
      if m.key_points = [] ∧ m.prerequisites = [] ∧ m.takeaways = [] ∧
          !truthyS m.difficulty_level then none
      else
        some { summary := trimStr (m.summary.getD "")
               keyPoints := m.key_points.filterMap (fun i =>
                 let t := trimStr i; if t = "" then none else some t)
               difficultyLevel := trimStr (m.difficulty_level.getD "")
               prerequisites := m.prerequisites.filterMap (fun i =>
                 let t := trimStr i; if t = "" then none else some t)
               practicalTakeaways := m.takeaways.filterMap (fun i =>
                 let t := trimStr i; if t = "" then none else some t) }

/-- One iteration of the per-video loop of `yt_branch`: Gemini analysis
when configured and truthy, else the stored-metadata fallback. -/
def yt_process_video (deps : Deps) (skill : String) (w : World) (rank : Nat)
    (video : Video) (sc : ℚ) : TutorialSuggestion × RankRow × World :=
  let gem : Option GeminiAnalysis × World :=
    match deps.gemini with
    | some g => (g video.url, { w with geminiCalls := w.geminiCalls ++ [video.url] })
    | none => (none, w)
  let fromGemini : Option TutorialAnalysis :=
    match gem.1 with
    | some r =>
        some { summary := r.summary, keyPoints := r.key_points,
               difficultyLevel := r.difficulty_level,
               prerequisites := r.prerequisites,
               practicalTakeaways := r.practical_takeaways }
    | none => none
  let resolved : Option TutorialAnalysis × World :=
    match fromGemini with
    | some a => (some a, gem.2)
    | none =>
        ((analysis_from_metadata (deps.video_metadata video.url)),
         { gem.2 with metaLookups := gem.2.metaLookups ++ [video.url] })
  let tip := personalization_tip skill video
  (⟨video.title, video.url, tip, resolved.1⟩,
   ({ rank := rank, score := sc, videoId := video.video_id,
      title := video.title, url := video.url,
      channelTitle := video.channel_title, duration := video.duration,
      viewCount := video.view_count, likeCount := video.like_count,
      commentCount := video.comment_count, publishedAt := video.published_at,
      personalizationTip := tip, analysis := resolved.1 } : RankRow),
   resolved.2)

/-- One iteration of the per-ranked-video loop of `yt_branch`. -/
def yt_rank_step (deps : Deps) (skill : String)
    (ac2 : List TutorialSuggestion × List RankRow × World)
    (pr : Nat × (Video × ℚ)) :
    List TutorialSuggestion × List RankRow × World :=
  let r := yt_process_video deps skill ac2.2.2 (pr.1 + 1) pr.2.1 pr.2.2
  (ac2.1 ++ [r.1], ac2.2.1 ++ [r.2.1], r.2.2)

/-- One iteration of the per-skill-query loop of `yt_branch`. -/
def yt_query_step (deps : Deps) (search : String → Nat → List Video)
    (user_map : List (String × ℚ))
    (acc : List ProjectSuggestion × List (String × List RankRow) × World)
    (item : SkillQuery) :
    List ProjectSuggestion × List (String × List RankRow) × World :=
  let videos := search item.query 8
  let w1 := { acc.2.2 with searches := acc.2.2.searches ++ [(item.query, 8)] }
  let ranked := deps.ranked_videos videos 3 (some item.skill) user_map
  let res := ranked.enum.foldl (yt_rank_step deps item.skill) ([], [], w1)
  let suggestion : ProjectSuggestion := ⟨item.skill, res.1⟩
  let payload2 :=
    if res.2.1 = [] then acc.2.1 else acc.2.1 ++ [(item.skill, res.2.1)]
  (acc.1 ++ [suggestion], payload2, res.2.2)

/-- `nodes.yt_branch.build_node` (inner function). -/
def yt_branch (deps : Deps) (s : GraphState) (w : World) :
    Except Err GraphState × World :=
  let queries := s.skill_queries.getD []
  match deps.youtube with
  | none => (Except.ok { s with project_suggestions := some [] }, w)
  | some search =>
      let pcPair : List ChannelEntry × GraphState :=
        match s.preferred_channels with
        | none =>
            (clone_default_channel_list,
             { s with preferred_channels := some clone_default_channel_list })
        | some l => (l, s)
      let user_map := preferred_channel_map pcPair.1
      let out := queries.foldl (yt_query_step deps search user_map) ([], [], w)
      match s.analysis_id with
      | none => (Except.error (Err.keyError "analysis_id"), out.2.2)
      | some aid =>
          let s1 := { pcPair.2 with project_suggestions := some out.1 }
          let w2 := (out.2.2).save_artifact aid "project_suggestions"
            (Artifact.suggestionsA out.1)
          let w3 :=
            if out.2.1 = [] then w2
            else w2.save_artifact aid "video_rankings" (Artifact.rankingsA out.2.1)
          (Except.ok s1, w3)

/-- The missing-skill list computed in `nodes.mvp_projects.generate_mvp`:
deduplicated missing hard skills, falling back to the analysis hard
skills, capped at eight. -/
def mvpMissing (s : GraphState) : List String :=
  let missing0 :=
    (match s.score with
      | some sc => sc.missingHardSkills
      | none => []).eraseDups
  let missing1 :=
    if missing0 = [] ∧ s.cv_analysis.isSome then
      (s.cv_analysis.getD {}).hardSkills.take 5
    else missing0
  missing1.take 8

/-- The tutorial catalog built in `nodes.mvp_projects.generate_mvp` from
the project suggestions (at most three per skill, blank entries dropped). -/
def mvpCatalog (suggestions : List ProjectSuggestion) : List CatalogEntry :=
  suggestions.foldl
    (fun acc sug =>
      acc ++ ((sug.projects.take 3).filterMap (fun proj =>
        if proj.tutorialUrl = "" ∧ proj.tutorialTitle = "" then none
        else
          some { skill := if sug.skill = "" then "general" else sug.skill,
                 tutorialTitle := proj.tutorialTitle,
                 tutorialUrl := proj.tutorialUrl,
                 personalizationTip := proj.personalizationTip })))
    []

/-- `nodes.mvp_projects.build_node` (`generate_mvp`, inner function; the
`missing` and `catalog` locals are the named helpers above).
The LLM call's own try/except is vacuous here because the oracle is
total, which matches its contract of swallowing every provider error
into an empty list. -/
def generate_mvp (deps : Deps) (s : GraphState) (w : World) :
    Except Err GraphState × World :=
  if truthyL s.mvp_projects then (Except.ok s, w)
  else
    if mvpMissing s = [] ∨ mvpCatalog (s.project_suggestions.getD []) = [] then
      (Except.ok { s with mvp_projects := some [] }, w)
    else
      let projects := deps.generate_mvp_projects (mvpMissing s)
        (mvpCatalog (s.project_suggestions.getD []))
        (s.cv_text.getD "") (s.jd_text.getD "")
      let w1 := { w with llmMvpCalls := w.llmMvpCalls + 1 }
      let s1 := { s with mvp_projects := some projects }
      match projects with
      | [] => (Except.ok s1, w1)
      | _ =>
          match s.analysis_id with
          | none => (Except.error (Err.keyError "analysis_id"), w1)
          | some aid =>
              (Except.ok s1, w1.save_artifact aid "mvp_projects"
                (Artifact.mvpA projects))

/-- `nodes.collect.build_node` (inner function): `setdefault`. -/
def collect (_deps : Deps) (s : GraphState) (w : World) :
    Except Err GraphState × World :=
  if s.project_suggestions.isNone then
    (Except.ok { s with project_suggestions := some [] }, w)
  else (Except.ok s, w)

/-- `nodes.email.build_node` (`send_email`, not instrumented in the
source). -/
def send_email (deps : Deps) (s : GraphState) (w : World) :
    Except Err GraphState × World :=
  if truthyB s.awaiting_approval && truthyS s.approval_token then (Except.ok s, w)
  else
    match s.analysis_id with
    | none => (Except.error (Err.keyError "analysis_id"), w)
    | some aid =>
        let token := deps.sign_token aid
        let _review_url := deps.settings.frontend_base_url ++
          "/review/approve?analysisId=" ++ aid ++ "&token=" ++ token
        let company_name :=
          match s.cv_analysis with
          | some a => first_non_empty a.companyName
          | none => ""
        let job_title :=
          match s.cv_analysis with
          | some a => first_non_empty a.jobTitle
          | none => ""
        let pieces := ["CV Analysis Ready"] ++
          (if job_title ≠ "" ∧ company_name ≠ "" then
            [job_title ++ " at " ++ company_name]
          else if job_title ≠ "" then [job_title]
          else if company_name ≠ "" then [company_name]
          else [])
        let subject := joinSep " - " pieces
        match s.email, s.cv_doc_id with
        | some emailAddr, some _cvdoc =>
            let html := deps.render "email/approval.html.j2" aid
            let w1 := { w with emails := w.emails ++ [({ toAddr := emailAddr, subject := subject, html := html } : EmailMsg)] }
            let s1 := { s with awaiting_approval := some true,
                               approval_token := some token }
            let w2 := w1.set_approval_token aid token
            let w3 := w2.update_status aid AnalysisStatus.AWAITING_APPROVAL
              (some (Payload.emailP s.cv_analysis s.score
                (s.project_suggestions.getD []) (s.mvp_projects.getD [])))
            (Except.ok s1, w3)
        | none, _ => (Except.error (Err.keyError "email"), w)
        | some _, none => (Except.error (Err.keyError "cv_doc_id"), w)

/-- `nodes.wait_approval.build_node` (not instrumented in the source). -/
def wait_approval (_deps : Deps) (s : GraphState) (w : World) :
    Except Err GraphState × World :=
  (Except.ok { s with awaiting_approval := some true }, w)

/-- `nodes.docs_apply._format_improvements`. -/
def format_improvements (improvements : ImprovementPlan) : String :=
  let parts := ["CV Alignment Suggestions\n-----------------------\n"]
  let parts :=
    if improvements.reformulations = [] then parts
    else parts ++ ["Reformulations:\n"] ++
      improvements.reformulations.map (fun item =>
        "- " ++ item.original ++ " -> " ++ item.improved ++
          " (" ++ item.reason ++ ")\n")
  let parts :=
    if improvements.removals = [] then parts
    else parts ++ ["Removals:\n"] ++
      improvements.removals.map (fun item =>
        "- " ++ item.text ++ " (" ++ item.reason ++ ")\n")
  let parts :=
    if improvements.additions = [] then parts
    else parts ++ ["Additions:\n"] ++
      improvements.additions.map (fun item =>
        "- " ++ item.sectionName ++ ": " ++ item.content ++
          " (" ++ item.reason ++ ")\n")
  joinSep "" parts

/-- `nodes.docs_apply.build_node` (inner function); note the source's
f-string contains the two-character sequence backslash-n (an escaped
backslash), not a newline, which the model reproduces. -/
def docs_apply (_deps : Deps) (s : GraphState) (w : World) :
    Except Err GraphState × World :=
  if !truthyB s.approval_granted then
    match s.analysis_id with
    | none => (Except.error (Err.keyError "analysis_id"), w)
    | some aid => (Except.error (Err.approvalPending aid (some s)), w)
  else
    match s.improvements with
    | none => (Except.ok s, w)
    | some improvements =>
        let text := format_improvements improvements
        match s.analysis_id, s.cv_doc_id, s.cv_text with
        | some aid, some cvdoc, some cvt =>
            let w1 := { w with docPrepends := w.docPrepends ++ [(cvdoc, text)] }
            let s1 := { s with cv_text := some (text ++ "\\n" ++ cvt) }
            (Except.ok s1,
             w1.save_artifact aid "applied_improvements" (Artifact.text text))
        | none, _, _ => (Except.error (Err.keyError "analysis_id"), w)
        | some _, none, _ => (Except.error (Err.keyError "cv_doc_id"), w)
        | some _, some _, none => (Except.error (Err.keyError "cv_text"), w)

/-- `nodes.recalc.build_node` (not instrumented in the source). -/
def recalc (deps : Deps) (s : GraphState) (w : World) :
    Except Err GraphState × World :=
  match s.analysis_id, s.cv_text, s.jd_text with
  | some aid, some cvt, some jdt =>
      let new_score := deps.score_cv cvt jdt s.cv_analysis
      let w1 := { w with llmScoreCalls := w.llmScoreCalls ++ [(cvt, jdt)] }
      match s.cv_doc_id, s.email with
      | some _cvdoc, some emailAddr =>
          let html := deps.render "email/completion.html.j2" aid
          let w2 := { w1 with emails := w1.emails ++
            [({ toAddr := emailAddr, subject := "CV updates applied", html := html } : EmailMsg)] }
          let payload := Payload.recalcP s.cv_analysis new_score s.improvements
            (s.project_suggestions.getD []) (s.mvp_projects.getD [])
          let w3 := w2.save_artifact aid "final_score" (Artifact.scoreA new_score)
          let w4 := w3.update_status aid AnalysisStatus.COMPLETED (some payload)
          (Except.ok { s with score := some new_score,
                              awaiting_approval := some false }, w4)
      | none, _ => (Except.error (Err.keyError "cv_doc_id"), w1)
      | some _, none => (Except.error (Err.keyError "email"), w1)
  | none, _, _ => (Except.error (Err.keyError "analysis_id"), w)
  | some _, none, _ => (Except.error (Err.keyError "cv_text"), w)
  | some _, some _, none => (Except.error (Err.keyError "jd_text"), w)

/-! ## Instrumentation wrapper (src/src/orchestrator/utils.py) -/

/-- The `except Exception` block of `instrument_node.wrapper`: record a
failure event keyed by the pre-invocation `analysis_id` (silently skipped
when it is empty), then re-raise; a telemetry error raised here
propagates instead. -/
def instrumentFail (node_name aid : String) (before : GraphState)
    (started : Nat) (e : Err) (w : World) : Except Err GraphState × World :=
  if aid = "" then (Except.error e, w)
  else
    match w.record_node_event aid node_name before none started (some e.message) with
    | (Except.ok _, w2) => (Except.error e, w2)
    | (Except.error e3, w3) => (Except.error e3, w3)

/-- `orchestrator.utils.instrument_node`: snapshot the state before and
after, record a `NodeEvent`, re-raise failures.  Both the node invocation
and the success-path `record_node_event` sit inside the `try`, so a
telemetry error on the success path flows into the `except` block (which
records it as a failure event) and is then re-raised. -/
def instrument_node (node_name : String)
    (func : Deps → GraphState → World → Except Err GraphState × World)
    (deps : Deps) (s : GraphState) (w : World) : Except Err GraphState × World :=
  let started := w.clock
  let before := s
  let aid := s.analysis_id.getD ""
  match func deps s w with
  | (Except.ok result, w1) =>
      let record_id :=
        match result.analysis_id with
        | some rid => if rid = "" then aid else rid
        | none => aid
      if record_id = "" then (Except.ok result, w1)
      else
        match w1.record_node_event record_id node_name before (some result)
            started none with
        | (Except.ok _, w2) => (Except.ok result, w2)
        | (Except.error e2, w2) => instrumentFail node_name aid before started e2 w2
  | (Except.error e, w1) => instrumentFail node_name aid before started e w1

/-- The single `NodeEvent` the wrapper records for one invocation:
keyed by the result's id (falling back to the pre-invocation id) with the
post-state snapshot on success, and by the pre-invocation id with an
empty snapshot and the error message on failure. -/
def wrapperEvent (node_name : String) (s : GraphState) (started : Nat)
    (aid : String) : Except Err GraphState → NodeEvent
  | Except.ok result =>
      { analysis_id :=
          match result.analysis_id with
          | some rid => if rid = "" then aid else rid
          | none => aid,
        node_name := node_name, state_before := s, output := some result,
        started_at := started, error := none }
  | Except.error e =>
      { analysis_id := aid, node_name := node_name, state_before := s,
        output := none, started_at := started, error := some e.message }

/-- The identity node, used to exercise the wrapper in witnesses. -/
def idNode : Deps → GraphState → World → Except Err GraphState × World :=
  fun _ s w => (Except.ok s, w)

/-! ## Graph wiring and runner (graph.py, runner.py) -/

/-- `orchestrator.graph.build_graph`: the fixed node sequence, with
exactly the instrumentation the source applies (`ingest`, `jd_analyze`,
`cv_score`, `email`, `wait_approval` and `recalc` are registered
unwrapped). -/
def node_sequence (deps : Deps) :
    List (GraphState → World → Except Err GraphState × World) :=
  [ingest deps,
   instrument_node "drive_export" drive_export deps,
   instrument_node "merge_jd" merge_jd deps,
   jd_analyze deps,
   cv_score deps,
   instrument_node "build_queries" build_queries deps,
   instrument_node "yt_branch" yt_branch deps,
   instrument_node "mvp_projects" generate_mvp deps,
   instrument_node "collect" collect deps,
   send_email deps,
   wait_approval deps,
   instrument_node "docs_apply" docs_apply deps,
   recalc deps]

/-- Sequential graph execution threading state and world; a raised
exception aborts the remaining nodes and propagates. -/
def runNodes : List (GraphState → World → Except Err GraphState × World) →
    GraphState → World → Except Err GraphState × World
  | [], s, w => (Except.ok s, w)
  | f :: fs, s, w =>
      match f s w with
      | (Except.ok s1, w1) => runNodes fs s1 w1
      | (Except.error e, w1) => (Except.error e, w1)

/-- `graph.compile().ainvoke`. -/
def Graph.ainvoke (deps : Deps) (s : GraphState) (w : World) :
    Except Err GraphState × World :=
  runNodes (node_sequence deps) s w

def emptyGraphState : GraphState := {}

/-- `OrchestratorRunner._run`: persist `COMPLETED` on success, catch
`ApprovalPendingError` (and only it), persist the carried state as
`AWAITING_APPROVAL`, and return that status instead of re-raising
(`exc.state or state` falls back to the invocation state when the carried
dict is missing or empty). -/
def Runner.run (deps : Deps) (state : GraphState) (w : World) :
    Except Err (GraphState × AnalysisStatus) × World :=
  match Graph.ainvoke deps state w with
  | (Except.ok result, w1) =>
      match state.analysis_id with
      | none => (Except.error (Err.keyError "analysis_id"), w1)
      | some aid =>
          let w2 := w1.update_status aid AnalysisStatus.COMPLETED
            (some (Payload.runnerP (state_to_payload result)))
          (Except.ok (result, AnalysisStatus.COMPLETED), w2)
  | (Except.error (Err.approvalPending _ st), w1) =>
      let awaiting :=
        match st with
        | some s2 => if s2 = emptyGraphState then state else s2
        | none => state
      match state.analysis_id with
      | none => (Except.error (Err.keyError "analysis_id"), w1)
      | some aid =>
          let w2 := w1.update_status aid AnalysisStatus.AWAITING_APPROVAL
            (some (Payload.runnerP (state_to_payload awaiting)))
          (Except.ok (awaiting, AnalysisStatus.AWAITING_APPROVAL), w2)
  | (Except.error e, w1) => (Except.error e, w1)

/-- `OrchestratorRunner.kickoff`, with the generated `uuid4().hex` passed
in as `analysis_id`. -/
def Runner.kickoff (deps : Deps) (analysis_id : String)
    (payload : AnalysisRequest) (w : World) :
    Except Err (String × AnalysisStatus) × World :=
  let state : GraphState :=
    { analysis_id := some analysis_id, email := some payload.email,
      cv_doc_id := some payload.cvDocId,
      job_description := some (payload.jobDescription.getD ""),
      job_description_url := payload.jobDescriptionUrl }
  let w1 := w.create_analysis analysis_id payload.email payload.cvDocId
    (Payload.runnerP (state_to_payload state))
  match Runner.run deps state w1 with
  | (Except.ok (_, status), w2) => (Except.ok (analysis_id, status), w2)
  | (Except.error e, w2) => (Except.error e, w2)

/-- `OrchestratorRunner.resume`. -/
def Runner.resume (deps : Deps) (analysis_id : String) (w : World) :
    Except Err AnalysisStatus × World :=
  match w.get_analysis analysis_id with
  | none => (Except.error (Err.valueError "Unknown analysis ID"), w)
  | some record =>
      let st0 := payload_to_state record.payload
      let state := { st0 with analysis_id := some analysis_id,
                              email := some record.email,
                              cv_doc_id := some record.cv_doc_id,
                              approval_granted := some true,
                              awaiting_approval := some false }
      match Runner.run deps state w with
      | (Except.ok (_, status), w2) => (Except.ok status, w2)
      | (Except.error e, w2) => (Except.error e, w2)

/-! ## Demo scenario: a concrete fresh run through kickoff and resume -/

/-- Concrete collaborator oracles for the scenario runs (the spec's §8
scenario: inline job description, no YouTube key configured). -/
def demoDeps : Deps :=
  { export_doc_text := fun _ => "CV TEXT"
    analyze_alignment := fun _ _ => {}
    score_cv := fun _ _ _ => {}
    improvement_plan := fun _ _ _ => {} }

/-- The §8 scenario request. -/
def demoReq : AnalysisRequest :=
  { email := "a@b.com", cvDocId := "doc1",
    jobDescription := some "Go, Kubernetes required" }

/-- Kickoff of the scenario run on a fresh store. -/
def demoKick : Except Err (String × AnalysisStatus) × World :=
  Runner.kickoff demoDeps "run1" demoReq {}

/-- Resume of the scenario run after approval. -/
def demoResume : Except Err AnalysisStatus × World :=
  Runner.resume demoDeps "run1" demoKick.2

/-- A node that succeeds, for exercising the wrapper. -/
def c4_node : Deps → GraphState → World → Except Err GraphState × World :=
  fun _ s w => (Except.ok { s with cv_text := some "done" }, w)

def c4_state : GraphState := { analysis_id := some "a1" }

/-- A world whose next `record_node_event` INSERT raises. -/
def c4_world : World := { recordFaults := [some "telemetry down"] }

/-- A one-analysis store for the C9 witness. -/
def c9_world : World :=
  { analyses := [{ id := "a1", email := "e@x", cv_doc_id := "d1" }] }

/-- World-effect frame for the pipeline segments whose outputs the
interrupt/resume argument abstracts (the YouTube branch and the MVP
generator): they never touch the `analyses` table, the status log or the
telemetry fault plan, and never decrease the logical clock. -/
def Frame (w w' : World) : Prop :=
  w'.analyses = w.analyses ∧ w'.statusLog = w.statusLog ∧
  w'.recordFaults = w.recordFaults ∧ w.clock ≤ w'.clock

/-- The world after a successful instrumented invocation with healthy
telemetry: the inner node's world plus the success `NodeEvent` and the
telemetry clock tick. -/
def instOkWorld (node_name aid : String) (before result : GraphState)
    (w0 w1 : World) : World :=
  { w1 with
      nodeEvents := w1.nodeEvents ++
        [{ analysis_id := aid, node_name := node_name,
           state_before := before, output := some result,
           started_at := w0.clock, error := none }]
      clock := w1.clock + 1 }

/-- The world after a raising instrumented invocation with healthy
telemetry: the inner node's world plus the failure `NodeEvent` and the
telemetry clock tick. -/
def instErrWorld (node_name aid : String) (before : GraphState) (e : Err)
    (w0 w1 : World) : World :=
  { w1 with
      nodeEvents := w1.nodeEvents ++
        [{ analysis_id := aid, node_name := node_name,
           state_before := before, output := none,
           started_at := w0.clock, error := some e.message }]
      clock := w1.clock + 1 }

/-! ## Storage lemmas -/

/-- A result of the maximal-row scan is a matching row of the scanned
log, unless it is the accumulator itself. -/
theorem latestStep_foldl_result (aid : String) :
    ∀ (log : List StatusRow) (acc : Option StatusRow) (r : StatusRow),
      log.foldl (latestStep aid) acc = some r →
      (r ∈ log ∧ r.analysis_id = aid) ∨ acc = some r := by
  intro log
  induction log with
  | nil => intro acc r h; exact Or.inr h
  | cons x xs ih =>
      intro acc r h
      simp only [List.foldl_cons] at h
      rcases ih _ _ h with ⟨hm, ha⟩ | hacc
      · exact Or.inl ⟨List.mem_cons_of_mem _ hm, ha⟩
      · cases acc with
        | none =>
            by_cases hx : x.analysis_id == aid
            · simp only [latestStep, if_pos hx] at hacc
              cases hacc
              exact Or.inl ⟨List.mem_cons_self _ _, by simpa using hx⟩
            · simp only [latestStep, if_neg hx] at hacc
              exact Or.inr hacc
        | some best =>
            by_cases hx : x.analysis_id == aid
            · simp only [latestStep, if_pos hx] at hacc
              by_cases hle : best.recorded_at ≤ x.recorded_at
              · rw [if_pos hle] at hacc
                cases hacc
                exact Or.inl ⟨List.mem_cons_self _ _, by simpa using hx⟩
              · rw [if_neg hle] at hacc
                exact Or.inr hacc
            · simp only [latestStep, if_neg hx] at hacc
              exact Or.inr hacc

/-- `update_status` with an explicit payload appends exactly one row
stamped with the current clock. -/
theorem update_status_statusLog (w : World) (aid : String)
    (st : AnalysisStatus) (pay : Payload) (le : Option String) :
    (w.update_status aid st (some pay) le).statusLog =
      w.statusLog ++ [{ analysis_id := aid, status := st, payload := pay,
                        last_error := le, recorded_at := w.clock }] := rfl

/-- After `update_status`, the freshly appended row is the most recent
row for its id, provided every existing row for that id is older than
the current clock. -/
theorem latestRow_update_status (w : World) (aid : String)
    (st : AnalysisStatus) (pay : Payload) (le : Option String)
    (hwf : ∀ r ∈ w.statusLog, r.analysis_id = aid → r.recorded_at < w.clock) :
    latestRow (w.update_status aid st (some pay) le) aid =
      some { analysis_id := aid, status := st, payload := pay,
             last_error := le, recorded_at := w.clock } := by
  unfold latestRow
  rw [update_status_statusLog, List.foldl_append]
  cases h : w.statusLog.foldl (latestStep aid) none with
  | none => simp [latestStep]
  | some best =>
      rcases latestStep_foldl_result aid w.statusLog none best h with ⟨hm, ha⟩ | h2
      · have hlt := hwf best hm ha
        simp only [List.foldl_cons, List.foldl_nil, latestStep]
        rw [if_pos (by simp)]
        rw [if_pos (le_of_lt hlt)]
      · cases h2

/-! ## Claim C9: append-only status log, current status = most recent row -/

/-- Claim C9: every status transition appends a new row to the status
log, never overwriting or deleting existing history (the old log is a
prefix of the new one), and the run's current status — the row the
`analysis_latest` view selects, hence `get_analysis` — is always the most
recent row for its run id. -/
theorem orch_status_log_append_only (w : World) (aid : String)
    (st : AnalysisStatus) (pay : Payload) (le : Option String)
    (hwf : ∀ r ∈ w.statusLog, r.analysis_id = aid → r.recorded_at < w.clock) :
    (w.update_status aid st (some pay) le).statusLog =
      w.statusLog ++ [{ analysis_id := aid, status := st, payload := pay,
                        last_error := le, recorded_at := w.clock }] ∧
    latestRow (w.update_status aid st (some pay) le) aid =
      some { analysis_id := aid, status := st, payload := pay,
             last_error := le, recorded_at := w.clock } ∧
    ((w.update_status aid st (some pay) le).get_analysis aid).map
        (fun rec => rec.status) =
      (w.analyses.find? (fun r => r.id == aid)).map (fun _ => st) := by
  refine ⟨update_status_statusLog w aid st pay le,
          latestRow_update_status w aid st pay le hwf, ?_⟩
  unfold World.get_analysis
  have hana : (w.update_status aid st (some pay) le).analyses = w.analyses := rfl
  rw [hana, latestRow_update_status w aid st pay le hwf]
  cases w.analyses.find? (fun r => r.id == aid) with
  | none => rfl
  | some row => rfl

/-- Witness for C9 at a concrete store. -/
theorem orch_status_log_append_only_witness :
    ((c9_world.update_status "a1" AnalysisStatus.RUNNING
        (some Payload.emptyP) none).get_analysis "a1").map
        (fun rec => rec.status) =
      (c9_world.analyses.find? (fun r => r.id == "a1")).map
        (fun _ => AnalysisStatus.RUNNING) :=
  (orch_status_log_append_only c9_world
      "a1" AnalysisStatus.RUNNING Payload.emptyP none
      (by intro r hr; cases hr)).2.2

/-! ## Claim C5: a failing node still records exactly one error event -/

/-- Claim C5: when an instrumented node raises any exception and the
state carries a (non-empty) run identifier, and the telemetry write
itself succeeds, exactly one `NodeEvent` is appended — error message
populated, output snapshot empty — and the original exception propagates
unchanged. -/
theorem orch_failed_node_records_one_event (node_name aid : String)
    (func : Deps → GraphState → World → Except Err GraphState × World)
    (deps : Deps) (s : GraphState) (w w1 : World) (e : Err)
    (hs : s.analysis_id = some aid) (ha : aid ≠ "")
    (hrun : func deps s w = (Except.error e, w1))
    (hf : w1.recordFaults = []) :
    instrument_node node_name func deps s w =
      (Except.error e,
       { w1 with
           nodeEvents := w1.nodeEvents ++
             [{ analysis_id := aid, node_name := node_name,
                state_before := s, output := none,
                started_at := w.clock, error := some e.message }]
           clock := w1.clock + 1 }) := by
  unfold instrument_node
  rw [hrun]
  unfold instrumentFail
  rw [hs]
  simp only [Option.getD_some, if_neg ha]
  unfold World.record_node_event
  rw [hf]

/-- Witness for C5: a concrete failing node with run id `a1`. -/
theorem orch_failed_node_records_one_event_witness :
    instrument_node "boom_node"
      (fun _ _ w => (Except.error (Err.valueError "boom"), w))
      {} { analysis_id := some "a1" } {} =
      (Except.error (Err.valueError "boom"),
       { ({} : World) with
           nodeEvents := [{ analysis_id := "a1", node_name := "boom_node",
                            state_before := { analysis_id := some "a1" },
                            output := none, started_at := 0,
                            error := some "boom" }]
           clock := 1 }) :=
  orch_failed_node_records_one_event "boom_node" "a1"
    (fun _ _ w => (Except.error (Err.valueError "boom"), w))
    {} { analysis_id := some "a1" } {} {} (Err.valueError "boom")
    rfl (by decide) rfl rfl

/-! ## Claim C4 (code bug): a telemetry failure replaces the node outcome -/

/-- Claim C4 is contradicted by the code: the success-path
`record_node_event` call sits inside the wrapper's `try`, so when the
node succeeds but the telemetry write raises, control flows to the
`except` block — which records a failure event naming the telemetry
error — and the telemetry exception is then re-raised in place of the
node's successful result. -/
theorem orch_telemetry_failure_masks_success :
    c4_node {} c4_state c4_world =
      (Except.ok { c4_state with cv_text := some "done" }, c4_world) ∧
    instrument_node "node1" c4_node {} c4_state c4_world =
      (Except.error (Err.storageError "telemetry down"),
       { c4_world with
           recordFaults := []
           nodeEvents := [{ analysis_id := "a1", node_name := "node1",
                            state_before := c4_state, output := none,
                            started_at := 0, error := some "telemetry down" }]
           clock := 1 }) :=
  ⟨rfl, rfl⟩

/-! ## Claim C2 counterexample: resume re-sends the approval email -/

/-- Claim C2 is false on the code: the scenario kickoff sends the
approval email once, and `Runner.resume` — which re-enters the graph
after setting `awaiting_approval` to false, thereby defeating the email
node's `awaiting_approval and approval_token` guard — sends the approval
email a second time. -/
theorem orch_resume_resends_approval_email :
    demoKick.1 = Except.ok ("run1", AnalysisStatus.AWAITING_APPROVAL) ∧
    (demoKick.2.emails.filter
      (fun e => e.subject == "CV Analysis Ready")).length = 1 ∧
    demoResume.1 = Except.ok AnalysisStatus.COMPLETED ∧
    (demoResume.2.emails.filter
      (fun e => e.subject == "CV Analysis Ready")).length = 2 :=
  ⟨rfl, rfl, rfl, rfl⟩

/-! ## Claim C6 counterexample: several nodes record no NodeEvent -/

/-- Claim C6 is false on the code: a kickoff that reaches the approval
pause records `NodeEvent`s only for the seven nodes wrapped in
`instrument_node`; the invocations of `ingest`, `jd_analyze`, `cv_score`
and the email-send node leave no telemetry record at all. -/
theorem orch_kickoff_missing_node_events :
    demoKick.1 = Except.ok ("run1", AnalysisStatus.AWAITING_APPROVAL) ∧
    demoKick.2.nodeEvents.map (fun ev => ev.node_name) =
      ["drive_export", "merge_jd", "build_queries", "yt_branch",
       "mvp_projects", "collect", "docs_apply"] ∧
    (demoKick.2.nodeEvents.filter
      (fun ev => ev.node_name == "jd_analyze")).length = 0 ∧
    (demoKick.2.nodeEvents.filter
      (fun ev => ev.node_name == "email")).length = 0 :=
  ⟨rfl, rfl, rfl, rfl⟩

/-! ## Amended C6: exactly the instrumented nodes record events -/

/-- With a run id present and healthy telemetry, the wrapper records
exactly one event and passes the inner outcome through unchanged. -/
theorem instrument_node_one_event (node_name aid : String)
    (func : Deps → GraphState → World → Except Err GraphState × World)
    (deps : Deps) (s : GraphState) (w : World)
    (hs : s.analysis_id = some aid) (ha : aid ≠ "")
    (hrf : (func deps s w).2.recordFaults = []) :
    (instrument_node node_name func deps s w).2.nodeEvents =
      (func deps s w).2.nodeEvents ++
        [wrapperEvent node_name s w.clock aid (func deps s w).1] ∧
    (instrument_node node_name func deps s w).1 = (func deps s w).1 := by
  unfold instrument_node
  rcases hfunc : func deps s w with ⟨r, w1⟩
  rw [hfunc] at hrf
  cases r with
  | ok result =>
      simp only [hs, Option.getD_some]
      cases hrid : result.analysis_id with
      | none =>
          rw [if_neg ha]
          unfold World.record_node_event
          rw [hrf]
          simp [wrapperEvent, hrid]
      | some rid =>
          dsimp only
          by_cases hr0 : rid = ""
          · subst hr0
            rw [show (if ("" : String) = "" then aid else "") = aid from if_pos rfl]
            rw [if_neg ha]
            unfold World.record_node_event
            rw [hrf]
            simp [wrapperEvent, hrid]
          · rw [if_neg hr0, if_neg hr0]
            unfold World.record_node_event
            rw [hrf]
            simp [wrapperEvent, hrid, hr0]
  | error e =>
      unfold instrumentFail
      simp only [hs, Option.getD_some]
      rw [if_neg ha]
      unfold World.record_node_event
      rw [hrf]
      simp [wrapperEvent]

theorem ingest_no_events (deps : Deps) (s : GraphState) (w : World) :
    (ingest deps s w).2.nodeEvents = w.nodeEvents := by
  unfold ingest
  cases s.analysis_id <;> cases s.email <;> cases s.cv_doc_id <;>
    simp [World.update_status]

theorem jd_analyze_no_events (deps : Deps) (s : GraphState) (w : World) :
    (jd_analyze deps s w).2.nodeEvents = w.nodeEvents := by
  unfold jd_analyze
  by_cases h : s.cv_analysis.isSome
  · rw [if_pos h]
  · rw [if_neg h]
    cases s.analysis_id <;> cases s.cv_text <;> cases s.jd_text <;>
      simp [World.save_artifact]

theorem cv_score_no_events (deps : Deps) (s : GraphState) (w : World) :
    (cv_score deps s w).2.nodeEvents = w.nodeEvents := by
  unfold cv_score
  by_cases h : s.score.isSome && s.improvements.isSome
  · rw [if_pos h]
  · rw [if_neg h]
    cases s.analysis_id <;> cases s.cv_text <;> cases s.jd_text <;>
      simp [World.save_artifact]

theorem send_email_no_events (deps : Deps) (s : GraphState) (w : World) :
    (send_email deps s w).2.nodeEvents = w.nodeEvents := by
  unfold send_email
  by_cases h : truthyB s.awaiting_approval && truthyS s.approval_token
  · rw [if_pos h]
  · rw [if_neg h]
    cases s.analysis_id <;> cases s.email <;> cases s.cv_doc_id <;>
      simp [World.update_status, World.set_approval_token]

theorem wait_approval_no_events (deps : Deps) (s : GraphState) (w : World) :
    (wait_approval deps s w).2.nodeEvents = w.nodeEvents := rfl

theorem recalc_no_events (deps : Deps) (s : GraphState) (w : World) :
    (recalc deps s w).2.nodeEvents = w.nodeEvents := by
  unfold recalc
  cases s.analysis_id <;> cases s.cv_text <;> cases s.jd_text <;>
    cases s.cv_doc_id <;> cases s.email <;>
    simp [World.update_status, World.save_artifact]

/-- Claim C6 as amended: each invocation of a node wrapped in
`instrument_node` (drive-export, merge-jd, build-queries, yt-branch,
mvp-projects, collect, docs-apply) records exactly one `NodeEvent` —
also for failed attempts — while the unwrapped nodes (`ingest`,
`jd_analyze`, `cv_score`, the email-send node, `wait_approval`,
`recalc`) record none; consequently a kickoff that reaches the approval
pause records exactly one event per instrumented node up through
`collect`, plus the failed `docs_apply` attempt, and nothing else. -/
theorem orch_instrumented_nodes_record_once (node_name aid : String)
    (func : Deps → GraphState → World → Except Err GraphState × World)
    (deps : Deps) (s : GraphState) (w : World)
    (hs : s.analysis_id = some aid) (ha : aid ≠ "")
    (hrf : (func deps s w).2.recordFaults = []) :
    ((instrument_node node_name func deps s w).2.nodeEvents =
        (func deps s w).2.nodeEvents ++
          [wrapperEvent node_name s w.clock aid (func deps s w).1] ∧
      (instrument_node node_name func deps s w).1 = (func deps s w).1) ∧
    (ingest deps s w).2.nodeEvents = w.nodeEvents ∧
    (jd_analyze deps s w).2.nodeEvents = w.nodeEvents ∧
    (cv_score deps s w).2.nodeEvents = w.nodeEvents ∧
    (send_email deps s w).2.nodeEvents = w.nodeEvents ∧
    (wait_approval deps s w).2.nodeEvents = w.nodeEvents ∧
    (recalc deps s w).2.nodeEvents = w.nodeEvents ∧
    demoKick.2.nodeEvents.map (fun ev => ev.node_name) =
      ["drive_export", "merge_jd", "build_queries", "yt_branch",
       "mvp_projects", "collect", "docs_apply"] :=
  ⟨instrument_node_one_event node_name aid func deps s w hs ha hrf,
   ingest_no_events deps s w, jd_analyze_no_events deps s w,
   cv_score_no_events deps s w, send_email_no_events deps s w,
   wait_approval_no_events deps s w, recalc_no_events deps s w, rfl⟩

/-- Witness for the amended C6 at a concrete identity node. -/
theorem orch_instrumented_nodes_record_once_witness :
    ((instrument_node "idnode" idNode demoDeps
        { analysis_id := some "a1" } {}).2.nodeEvents =
      (idNode demoDeps { analysis_id := some "a1" } ({} : World)).2.nodeEvents ++
        [wrapperEvent "idnode" { analysis_id := some "a1" } (0 : Nat) "a1"
          (idNode demoDeps { analysis_id := some "a1" } ({} : World)).1] ∧
      (instrument_node "idnode" idNode demoDeps
        { analysis_id := some "a1" } {}).1 =
      (idNode demoDeps { analysis_id := some "a1" } ({} : World)).1) ∧
    (ingest demoDeps { analysis_id := some "a1" } {}).2.nodeEvents =
      ({} : World).nodeEvents ∧
    (jd_analyze demoDeps { analysis_id := some "a1" } {}).2.nodeEvents =
      ({} : World).nodeEvents ∧
    (cv_score demoDeps { analysis_id := some "a1" } {}).2.nodeEvents =
      ({} : World).nodeEvents ∧
    (send_email demoDeps { analysis_id := some "a1" } {}).2.nodeEvents =
      ({} : World).nodeEvents ∧
    (wait_approval demoDeps { analysis_id := some "a1" } {}).2.nodeEvents =
      ({} : World).nodeEvents ∧
    (recalc demoDeps { analysis_id := some "a1" } {}).2.nodeEvents =
      ({} : World).nodeEvents ∧
    demoKick.2.nodeEvents.map (fun ev => ev.node_name) =
      ["drive_export", "merge_jd", "build_queries", "yt_branch",
       "mvp_projects", "collect", "docs_apply"] :=
  orch_instrumented_nodes_record_once "idnode" "a1"
    idNode demoDeps { analysis_id := some "a1" } {}
    rfl (by decide) rfl

/-! ## Amended C2: guarded nodes skip on resume, but the email re-sends -/

/-- Claim C2 as amended: on the re-entry performed by `Runner.resume`,
the presence-guarded upstream nodes see their outputs already populated
and do not repeat their collaborator calls (one Drive export, one
alignment call, one improvement-plan call in total across kickoff plus
resume), and the two suspend-adjacent nodes perform the new work (a
second scoring call and the document prepend); however the approval-email
node's guard is defeated — `resume` sets `awaiting_approval` to false —
so the approval email is sent a second time. -/
theorem orch_resume_skips_guarded_nodes :
    demoResume.1 = Except.ok AnalysisStatus.COMPLETED ∧
    demoResume.2.driveExports = ["doc1"] ∧
    demoResume.2.llmAlignCalls.length = 1 ∧
    demoResume.2.llmImproveCalls.length = 1 ∧
    demoResume.2.llmScoreCalls.length = 2 ∧
    demoResume.2.docPrepends.length = 1 ∧
    demoResume.2.fetches.length = 0 ∧
    (demoResume.2.emails.filter
      (fun e => e.subject == "CV Analysis Ready")).length = 2 :=
  ⟨rfl, rfl, rfl, rfl, rfl, rfl, rfl, rfl⟩

/-! ## Run-chaining lemmas for the interrupt/resume proof -/

theorem runNodes_cons_ok (f : GraphState → World → Except Err GraphState × World)
    (fs : List (GraphState → World → Except Err GraphState × World))
    (s : GraphState) (w : World) (s1 : GraphState) (w1 : World)
    (h : f s w = (Except.ok s1, w1)) :
    runNodes (f :: fs) s w = runNodes fs s1 w1 := by
  have e1 : runNodes (f :: fs) s w =
      match f s w with
      | (Except.ok s1, w1) => runNodes fs s1 w1
      | (Except.error e, w1) => (Except.error e, w1) := rfl
  rw [e1, h]

theorem runNodes_cons_error
    (f : GraphState → World → Except Err GraphState × World)
    (fs : List (GraphState → World → Except Err GraphState × World))
    (s : GraphState) (w : World) (e : Err) (w1 : World)
    (h : f s w = (Except.error e, w1)) :
    runNodes (f :: fs) s w = (Except.error e, w1) := by
  have e1 : runNodes (f :: fs) s w =
      match f s w with
      | (Except.ok s1, w1) => runNodes fs s1 w1
      | (Except.error e, w1) => (Except.error e, w1) := rfl
  rw [e1, h]

theorem WFp_update (w : World) (aid : String) (st : AnalysisStatus)
    (pay : Payload) (le : Option String) (h : WFp w aid) :
    WFp (w.update_status aid st (some pay) le) aid := by
  intro r hr ha
  rw [update_status_statusLog] at hr
  rcases List.mem_append.mp hr with h1 | h2
  · exact lt_trans (h r h1 ha) (Nat.lt_succ_self _)
  · rcases List.mem_singleton.mp h2 with rfl
    exact Nat.lt_succ_self _

theorem WFp_frame (w w' : World) (aid : String) (h : WFp w aid)
    (hlog : w'.statusLog = w.statusLog) (hclk : w.clock ≤ w'.clock) :
    WFp w' aid := by
  intro r hr ha
  rw [hlog] at hr
  exact lt_of_lt_of_le (h r hr ha) hclk

theorem mergeWorld_frame (deps : Deps) (req : AnalysisRequest) (w : World) :
    (mergeWorld deps req w).statusLog = w.statusLog ∧
    (mergeWorld deps req w).analyses = w.analyses ∧
    (mergeWorld deps req w).recordFaults = w.recordFaults ∧
    (mergeWorld deps req w).clock = w.clock := by
  unfold mergeWorld
  split <;> exact ⟨rfl, rfl, rfl, rfl⟩

/-- The wrapper on a successful node whose result keeps the run id:
returns the result and appends exactly one success event. -/
theorem instrument_ok_eq (node_name aid : String)
    (func : Deps → GraphState → World → Except Err GraphState × World)
    (deps : Deps) (s s1 : GraphState) (w w1 : World)
    (hs : s.analysis_id = some aid) (ha : aid ≠ "")
    (hs1 : s1.analysis_id = some aid)
    (hfunc : func deps s w = (Except.ok s1, w1))
    (hrf : w1.recordFaults = []) :
    instrument_node node_name func deps s w =
      (Except.ok s1,
       { w1 with
           nodeEvents := w1.nodeEvents ++
             [{ analysis_id := aid, node_name := node_name,
                state_before := s, output := some s1,
                started_at := w.clock, error := none }]
           clock := w1.clock + 1 }) := by
  unfold instrument_node
  rw [hfunc]
  simp only [hs, hs1, Option.getD_some]
  rw [if_neg ha, if_neg ha]
  unfold World.record_node_event
  rw [hrf]

/-- The wrapper on a raising node with a run id and healthy telemetry:
re-raises and appends exactly one failure event. -/
theorem instrument_error_eq (node_name aid : String)
    (func : Deps → GraphState → World → Except Err GraphState × World)
    (deps : Deps) (s : GraphState) (w w1 : World) (e : Err)
    (hs : s.analysis_id = some aid) (ha : aid ≠ "")
    (hfunc : func deps s w = (Except.error e, w1))
    (hrf : w1.recordFaults = []) :
    instrument_node node_name func deps s w =
      (Except.error e,
       { w1 with
           nodeEvents := w1.nodeEvents ++
             [{ analysis_id := aid, node_name := node_name,
                state_before := s, output := none,
                started_at := w.clock, error := some e.message }]
           clock := w1.clock + 1 }) := by
  unfold instrument_node
  rw [hfunc]
  unfold instrumentFail
  rw [hs]
  simp only [Option.getD_some, if_neg ha]
  unfold World.record_node_event
  rw [hrf]

/-- `merge_jd` on a state carrying the kickoff request's job-description
fields: stores the merged text and saves it as an artifact. -/
theorem merge_jd_eq (deps : Deps) (req : AnalysisRequest) (aid : String)
    (s : GraphState) (w : World)
    (hs : s.analysis_id = some aid)
    (hjdf : s.job_description = some (req.jobDescription.getD ""))
    (hurl : s.job_description_url = req.jobDescriptionUrl)
    (hjd : mergedJD deps req ≠ "") :
    merge_jd deps s w =
      (Except.ok { s with jd_text := some (mergedJD deps req) },
       (mergeWorld deps req w).save_artifact aid "jd_text"
         (Artifact.text (mergedJD deps req))) := by
  unfold merge_jd
  rw [hs]
  dsimp only
  rw [hjdf, hurl]
  simp only [Option.getD_some]
  unfold mergedJD at hjd ⊢
  unfold mergeWorld
  by_cases hc : trimStr (req.jobDescription.getD "") = "" ∧
      truthyS req.jobDescriptionUrl
  · rw [if_pos hc] at hjd
    rw [if_pos hc, if_pos hc, if_pos hc, if_neg hjd]
  · rw [if_neg hc] at hjd
    rw [if_neg hc, if_neg hc, if_neg hc, if_neg hjd]

theorem frame_refl (w : World) : Frame w w := ⟨rfl, rfl, rfl, Nat.le_refl _⟩

theorem frame_trans (w1 w2 w3 : World) (h12 : Frame w1 w2) (h23 : Frame w2 w3) :
    Frame w1 w3 :=
  ⟨h23.1.trans h12.1, h23.2.1.trans h12.2.1, h23.2.2.1.trans h12.2.2.1,
   le_trans h12.2.2.2 h23.2.2.2⟩

theorem frame_save_artifact (w : World) (aid t : String) (c : Artifact) :
    Frame w (w.save_artifact aid t c) := ⟨rfl, rfl, rfl, Nat.le_succ _⟩

/-- The per-video loop body touches only the Gemini/metadata call logs. -/
theorem yt_process_video_frame (deps : Deps) (skill : String) (w : World)
    (rank : Nat) (v : Video) (sc : ℚ) :
    Frame w (yt_process_video deps skill w rank v sc).2.2 := by
  unfold yt_process_video
  cases hg : deps.gemini with
  | none => exact ⟨rfl, rfl, rfl, Nat.le_refl _⟩
  | some g =>
      dsimp only
      cases hr : g v.url with
      | none => exact ⟨rfl, rfl, rfl, Nat.le_refl _⟩
      | some r => exact ⟨rfl, rfl, rfl, Nat.le_refl _⟩

/-- Frame invariants survive a left fold. -/
theorem foldl_frame {α β : Type} (f : β → α → β) (proj : β → World)
    (hstep : ∀ b a, Frame (proj b) (proj (f b a))) :
    ∀ (l : List α) (b : β), Frame (proj b) (proj (l.foldl f b)) := by
  intro l
  induction l with
  | nil => intro b; exact frame_refl _
  | cons x xs ih =>
      intro b
      exact frame_trans _ _ _ (hstep b x) (ih (f b x))

theorem yt_rank_step_frame (deps : Deps) (skill : String)
    (ac : List TutorialSuggestion × List RankRow × World)
    (pr : Nat × (Video × ℚ)) :
    Frame ac.2.2 (yt_rank_step deps skill ac pr).2.2 :=
  yt_process_video_frame deps skill ac.2.2 (pr.1 + 1) pr.2.1 pr.2.2

theorem yt_query_step_frame (deps : Deps) (search : String → Nat → List Video)
    (um : List (String × ℚ))
    (acc : List ProjectSuggestion × List (String × List RankRow) × World)
    (item : SkillQuery) :
    Frame acc.2.2 (yt_query_step deps search um acc item).2.2 := by
  have h1 : Frame acc.2.2
      ({ acc.2.2 with
          searches := acc.2.2.searches ++ [(item.query, 8)] } : World) :=
    ⟨rfl, rfl, rfl, Nat.le_refl _⟩
  have h2 := foldl_frame (yt_rank_step deps item.skill)
    (fun b => b.2.2) (fun b a => yt_rank_step_frame deps item.skill b a)
    ((deps.ranked_videos (search item.query 8) 3 (some item.skill) um).enum)
    ([], [],
     { acc.2.2 with searches := acc.2.2.searches ++ [(item.query, 8)] })
  exact frame_trans _ _ _ h1 h2

/-- `yt_branch` with a run id present: succeeds, changes only the
suggestion list and the preferred-channel default, and leaves the
storage tables framed. -/
theorem yt_branch_shape (deps : Deps) (s : GraphState) (w : World)
    (aid : String) (hs : s.analysis_id = some aid) :
    ∃ (ps : List ProjectSuggestion) (pc : Option (List ChannelEntry))
      (w' : World),
      yt_branch deps s w =
        (Except.ok { s with project_suggestions := some ps,
                            preferred_channels := pc }, w') ∧
      Frame w w' := by
  unfold yt_branch
  cases hyt : deps.youtube with
  | none => exact ⟨[], s.preferred_channels, w, rfl, frame_refl w⟩
  | some search =>
      rw [hs]
      cases hpc : s.preferred_channels with
      | none =>
          refine ⟨_, some clone_default_channel_list, _, rfl, ?_⟩
          have hqf : Frame w ((s.skill_queries.getD []).foldl
              (yt_query_step deps search
                (preferred_channel_map clone_default_channel_list))
              ([], [], w)).2.2 :=
            foldl_frame _ (fun b => b.2.2)
              (fun b a => yt_query_step_frame deps search _ b a) _ _
          split
          · exact frame_trans _ _ _ hqf (frame_save_artifact _ _ _ _)
          · exact frame_trans _ _ _
              (frame_trans _ _ _ hqf (frame_save_artifact _ _ _ _))
              (frame_save_artifact _ _ _ _)
      | some l =>
          dsimp only
          rw [hs]
          refine ⟨_, s.preferred_channels, _, rfl, ?_⟩
          have hqf : Frame w ((s.skill_queries.getD []).foldl
              (yt_query_step deps search (preferred_channel_map l))
              ([], [], w)).2.2 :=
            foldl_frame _ (fun b => b.2.2)
              (fun b a => yt_query_step_frame deps search _ b a) _ _
          split
          · exact frame_trans _ _ _ hqf (frame_save_artifact _ _ _ _)
          · exact frame_trans _ _ _
              (frame_trans _ _ _ hqf (frame_save_artifact _ _ _ _))
              (frame_save_artifact _ _ _ _)

/-- `generate_mvp` with a run id present: succeeds, changes only the
`mvp_projects` field, and leaves the storage tables framed. -/
theorem generate_mvp_shape (deps : Deps) (s : GraphState) (w : World)
    (aid : String) (hs : s.analysis_id = some aid) :
    ∃ (mv : Option (List MvpProject)) (w' : World),
      generate_mvp deps s w = (Except.ok { s with mvp_projects := mv }, w') ∧
      Frame w w' := by
  unfold generate_mvp
  by_cases h1 : truthyL s.mvp_projects = true
  · rw [if_pos h1]
    exact ⟨s.mvp_projects, w, rfl, frame_refl w⟩
  · rw [if_neg h1]
    by_cases h2 : mvpMissing s = [] ∨
        mvpCatalog (s.project_suggestions.getD []) = []
    · rw [if_pos h2]
      exact ⟨some [], w, rfl, frame_refl w⟩
    · rw [if_neg h2]
      rw [hs]
      cases hp : deps.generate_mvp_projects (mvpMissing s)
          (mvpCatalog (s.project_suggestions.getD []))
          (s.cv_text.getD "") (s.jd_text.getD "") with
      | nil =>
          exact ⟨some [], { w with llmMvpCalls := w.llmMvpCalls + 1 },
                 rfl, ⟨rfl, rfl, rfl, Nat.le_refl _⟩⟩
      | cons p rest =>
          exact ⟨some (p :: rest), _, rfl, ⟨rfl, rfl, rfl, Nat.le_succ _⟩⟩

/-- `ingest` with the identity fields present: records `RUNNING`,
clears the two suggestion lists. -/
theorem ingest_eq (deps : Deps) (s : GraphState) (w : World)
    (aid em cd : String)
    (h1 : s.analysis_id = some aid) (h2 : s.email = some em)
    (h3 : s.cv_doc_id = some cd) :
    ingest deps s w =
      (Except.ok { s with project_suggestions := some [],
                          mvp_projects := some [] },
       w.update_status aid AnalysisStatus.RUNNING
         (some (Payload.ingestP em cd (s.job_description.getD "")
           s.job_description_url))) := by
  unfold ingest
  rw [h1, h2, h3]

/-- `drive_export` with no CV text yet: one Drive export plus the
artifact write. -/
theorem drive_export_fetch_eq (deps : Deps) (s : GraphState) (w : World)
    (aid cd : String)
    (h0 : s.cv_text = none) (h1 : s.analysis_id = some aid)
    (h2 : s.cv_doc_id = some cd)
    (hsize : ¬ MAX_DOC_BYTES < (deps.export_doc_text cd).utf8ByteSize) :
    drive_export deps s w =
      (Except.ok { s with cv_text := some (deps.export_doc_text cd) },
       ({ w with driveExports := w.driveExports ++ [cd] } : World).save_artifact
         aid "cv_text" (Artifact.text (deps.export_doc_text cd))) := by
  unfold drive_export
  rw [h0]
  rw [if_neg (show ¬ (truthyS none = true) by simp [truthyS])]
  rw [h1, h2]
  dsimp only
  rw [if_neg hsize]

/-- `drive_export` with CV text already present: a no-op. -/
theorem drive_export_skip (deps : Deps) (s : GraphState) (w : World)
    (h0 : truthyS s.cv_text = true) :
    drive_export deps s w = (Except.ok s, w) := by
  unfold drive_export
  rw [if_pos h0]

/-- `jd_analyze` with no analysis yet: one alignment call plus the
artifact write. -/
theorem jd_analyze_compute_eq (deps : Deps) (s : GraphState) (w : World)
    (aid cvt jdt : String)
    (h0 : s.cv_analysis = none) (h1 : s.analysis_id = some aid)
    (h2 : s.cv_text = some cvt) (h3 : s.jd_text = some jdt) :
    jd_analyze deps s w =
      (Except.ok { s with cv_analysis := some (deps.analyze_alignment cvt jdt) },
       ({ w with llmAlignCalls := w.llmAlignCalls ++ [(cvt, jdt)] }
         : World).save_artifact aid "cv_analysis"
         (Artifact.analysisA (deps.analyze_alignment cvt jdt))) := by
  unfold jd_analyze
  rw [h0]
  rw [if_neg (show ¬ ((none : Option CvAnalysis).isSome = true) by simp)]
  rw [h1, h2, h3]

/-- `jd_analyze` with the analysis already present: a no-op. -/
theorem jd_analyze_skip (deps : Deps) (s : GraphState) (w : World)
    (a : CvAnalysis) (h : s.cv_analysis = some a) :
    jd_analyze deps s w = (Except.ok s, w) := by
  unfold jd_analyze
  rw [h]
  rw [if_pos (show (some a).isSome = true from rfl)]

/-- `cv_score` with no score yet: one scoring call, one improvement-plan
call, two artifact writes. -/
theorem cv_score_compute_eq (deps : Deps) (s : GraphState) (w : World)
    (aid cvt jdt : String)
    (h0 : s.score = none) (h1 : s.analysis_id = some aid)
    (h2 : s.cv_text = some cvt) (h3 : s.jd_text = some jdt) :
    cv_score deps s w =
      (Except.ok { s with
          score := some (deps.score_cv cvt jdt s.cv_analysis),
          improvements := some (deps.improvement_plan cvt jdt
            (deps.score_cv cvt jdt s.cv_analysis)) },
       ((({ w with llmScoreCalls := w.llmScoreCalls ++ [(cvt, jdt)],
                   llmImproveCalls := w.llmImproveCalls ++ [(cvt, jdt)] }
           : World).save_artifact aid "cv_score"
           (Artifact.scoreA (deps.score_cv cvt jdt s.cv_analysis))).save_artifact
         aid "cv_improvements"
         (Artifact.planA (deps.improvement_plan cvt jdt
           (deps.score_cv cvt jdt s.cv_analysis))))) := by
  unfold cv_score
  rw [h0]
  rw [if_neg (show ¬ (((none : Option CvScore).isSome &&
    s.improvements.isSome) = true) by simp)]
  rw [h1, h2, h3]

/-- `cv_score` with score and improvements already present: a no-op. -/
theorem cv_score_skip (deps : Deps) (s : GraphState) (w : World)
    (sc : CvScore) (imp : ImprovementPlan)
    (h1 : s.score = some sc) (h2 : s.improvements = some imp) :
    cv_score deps s w = (Except.ok s, w) := by
  unfold cv_score
  rw [h1, h2]
  rw [if_pos (show ((some sc).isSome && (some imp).isSome) = true from rfl)]

/-- `build_queries` always recomputes the query list. -/
theorem build_queries_eq (deps : Deps) (s : GraphState) (w : World) :
    build_queries deps s w =
      (Except.ok { s with
          skill_queries := some (skill_queries_of s.score s.cv_analysis) },
       w) := rfl

/-- `collect` with the suggestion list present: a no-op. -/
theorem collect_skip (deps : Deps) (s : GraphState) (w : World)
    (ps : List ProjectSuggestion) (h : s.project_suggestions = some ps) :
    collect deps s w = (Except.ok s, w) := by
  unfold collect
  rw [h]
  rw [if_neg (show ¬ ((some ps).isNone = true) by simp)]

/-- The email node off its guard: sends the approval email, stores the
token, records `AWAITING_APPROVAL`. -/
theorem send_email_shape (deps : Deps) (s : GraphState) (w : World)
    (aid em cd : String)
    (hg : (truthyB s.awaiting_approval && truthyS s.approval_token) = false)
    (h1 : s.analysis_id = some aid) (h2 : s.email = some em)
    (h3 : s.cv_doc_id = some cd) :
    ∃ msg : EmailMsg,
      send_email deps s w =
        (Except.ok { s with awaiting_approval := some true,
                            approval_token := some (deps.sign_token aid) },
         (({ w with emails := w.emails ++ [msg] } : World).set_approval_token
             aid (deps.sign_token aid)).update_status aid
           AnalysisStatus.AWAITING_APPROVAL
           (some (Payload.emailP s.cv_analysis s.score
             (s.project_suggestions.getD []) (s.mvp_projects.getD [])))) := by
  unfold send_email
  rw [hg]
  rw [if_neg (show ¬ (false = true) by simp)]
  rw [h1]
  dsimp only
  rw [h2, h3]
  exact ⟨_, rfl⟩

theorem wait_approval_eq (deps : Deps) (s : GraphState) (w : World) :
    wait_approval deps s w =
      (Except.ok { s with awaiting_approval := some true }, w) := rfl

/-- `docs_apply` without the approval flag: raises the interrupt signal
carrying the current state. -/
theorem docs_apply_pending_eq (deps : Deps) (s : GraphState) (w : World)
    (aid : String) (hg : truthyB s.approval_granted = false)
    (h1 : s.analysis_id = some aid) :
    docs_apply deps s w =
      (Except.error (Err.approvalPending aid (some s)), w) := by
  unfold docs_apply
  rw [hg]
  rw [if_pos (show (!false) = true from rfl)]
  rw [h1]

/-- `docs_apply` after approval with an improvement plan: one document
prepend plus the artifact write. -/
theorem docs_apply_apply_eq (deps : Deps) (s : GraphState) (w : World)
    (aid cd cvt : String) (imp : ImprovementPlan)
    (hg : truthyB s.approval_granted = true)
    (himp : s.improvements = some imp)
    (h1 : s.analysis_id = some aid) (h2 : s.cv_doc_id = some cd)
    (h3 : s.cv_text = some cvt) :
    docs_apply deps s w =
      (Except.ok { s with
          cv_text := some (format_improvements imp ++ "\\n" ++ cvt) },
       ({ w with docPrepends := w.docPrepends ++
            [(cd, format_improvements imp)] } : World).save_artifact aid
         "applied_improvements" (Artifact.text (format_improvements imp))) := by
  unfold docs_apply
  rw [hg]
  rw [if_neg (show ¬ ((!true) = true) by simp)]
  rw [himp]
  dsimp only
  rw [h1, h2, h3]

/-- `recalc` with every field present: one scoring call, the completion
email, the final-score artifact and the `COMPLETED` status row. -/
theorem recalc_eq (deps : Deps) (s : GraphState) (w : World)
    (aid cvt jdt cd em : String)
    (h1 : s.analysis_id = some aid) (h2 : s.cv_text = some cvt)
    (h3 : s.jd_text = some jdt) (h4 : s.cv_doc_id = some cd)
    (h5 : s.email = some em) :
    recalc deps s w =
      (Except.ok { s with
          score := some (deps.score_cv cvt jdt s.cv_analysis),
          awaiting_approval := some false },
       (({ w with llmScoreCalls := w.llmScoreCalls ++ [(cvt, jdt)],
                  emails := w.emails ++
                    [({ toAddr := em, subject := "CV updates applied",
                        html := deps.render "email/completion.html.j2" aid }
                      : EmailMsg)] } : World).save_artifact aid "final_score"
           (Artifact.scoreA (deps.score_cv cvt jdt s.cv_analysis))).update_status
         aid AnalysisStatus.COMPLETED
         (some (Payload.recalcP s.cv_analysis
           (deps.score_cv cvt jdt s.cv_analysis) s.improvements
           (s.project_suggestions.getD []) (s.mvp_projects.getD [])))) := by
  unfold recalc
  rw [h1, h2, h3]
  dsimp only
  rw [h4, h5]

/-- A fresh store satisfies the clock invariant. -/
theorem WFp_emptyW (aid : String) : WFp {} aid := by
  intro r hr
  cases hr

/-- `create_analysis` preserves the clock invariant. -/
theorem WFp_create (w : World) (aid aid2 em cd : String) (pay : Payload)
    (h : WFp w aid) : WFp (w.create_analysis aid2 em cd pay) aid := by
  intro r hr hid
  have hlog : (w.create_analysis aid2 em cd pay).statusLog =
      w.statusLog ++ [{ analysis_id := aid2, status := AnalysisStatus.PENDING,
                        payload := pay, last_error := none,
                        recorded_at := w.clock }] := rfl
  have hclk : (w.create_analysis aid2 em cd pay).clock = w.clock + 1 := rfl
  rw [hlog] at hr
  rw [hclk]
  rcases List.mem_append.mp hr with hm | hm
  · exact lt_trans (h r hm hid) (Nat.lt_succ_self _)
  · rcases List.mem_singleton.mp hm with rfl
    exact Nat.lt_succ_self _

/-- The graph run of a kickoff that reaches `docs_apply` unapproved:
eleven successful nodes, then the interrupt propagates. -/
theorem ainvoke_pause (deps : Deps)
    {s0 s1 s2 s3 s4 s5 s6 s7 s8 s9 s10 s11 : GraphState}
    {w0 w1 w2 w3 w4 w5 w6 w7 w8 w9 w10 w11 w12 : World} {e : Err}
    (h1 : ingest deps s0 w0 = (Except.ok s1, w1))
    (h2 : instrument_node "drive_export" drive_export deps s1 w1 =
      (Except.ok s2, w2))
    (h3 : instrument_node "merge_jd" merge_jd deps s2 w2 = (Except.ok s3, w3))
    (h4 : jd_analyze deps s3 w3 = (Except.ok s4, w4))
    (h5 : cv_score deps s4 w4 = (Except.ok s5, w5))
    (h6 : instrument_node "build_queries" build_queries deps s5 w5 =
      (Except.ok s6, w6))
    (h7 : instrument_node "yt_branch" yt_branch deps s6 w6 =
      (Except.ok s7, w7))
    (h8 : instrument_node "mvp_projects" generate_mvp deps s7 w7 =
      (Except.ok s8, w8))
    (h9 : instrument_node "collect" collect deps s8 w8 = (Except.ok s9, w9))
    (h10 : send_email deps s9 w9 = (Except.ok s10, w10))
    (h11 : wait_approval deps s10 w10 = (Except.ok s11, w11))
    (h12 : instrument_node "docs_apply" docs_apply deps s11 w11 =
      (Except.error e, w12)) :
    Graph.ainvoke deps s0 w0 = (Except.error e, w12) := by
  unfold Graph.ainvoke node_sequence
  rw [runNodes_cons_ok _ _ _ _ _ _ h1, runNodes_cons_ok _ _ _ _ _ _ h2,
      runNodes_cons_ok _ _ _ _ _ _ h3, runNodes_cons_ok _ _ _ _ _ _ h4,
      runNodes_cons_ok _ _ _ _ _ _ h5, runNodes_cons_ok _ _ _ _ _ _ h6,
      runNodes_cons_ok _ _ _ _ _ _ h7, runNodes_cons_ok _ _ _ _ _ _ h8,
      runNodes_cons_ok _ _ _ _ _ _ h9, runNodes_cons_ok _ _ _ _ _ _ h10,
      runNodes_cons_ok _ _ _ _ _ _ h11,
      runNodes_cons_error _ _ _ _ _ _ h12]

/-- The graph run of an approved resume: all thirteen nodes succeed. -/
theorem ainvoke_complete (deps : Deps)
    {s0 s1 s2 s3 s4 s5 s6 s7 s8 s9 s10 s11 s12 s13 : GraphState}
    {w0 w1 w2 w3 w4 w5 w6 w7 w8 w9 w10 w11 w12 w13 : World}
    (h1 : ingest deps s0 w0 = (Except.ok s1, w1))
    (h2 : instrument_node "drive_export" drive_export deps s1 w1 =
      (Except.ok s2, w2))
    (h3 : instrument_node "merge_jd" merge_jd deps s2 w2 = (Except.ok s3, w3))
    (h4 : jd_analyze deps s3 w3 = (Except.ok s4, w4))
    (h5 : cv_score deps s4 w4 = (Except.ok s5, w5))
    (h6 : instrument_node "build_queries" build_queries deps s5 w5 =
      (Except.ok s6, w6))
    (h7 : instrument_node "yt_branch" yt_branch deps s6 w6 =
      (Except.ok s7, w7))
    (h8 : instrument_node "mvp_projects" generate_mvp deps s7 w7 =
      (Except.ok s8, w8))
    (h9 : instrument_node "collect" collect deps s8 w8 = (Except.ok s9, w9))
    (h10 : send_email deps s9 w9 = (Except.ok s10, w10))
    (h11 : wait_approval deps s10 w10 = (Except.ok s11, w11))
    (h12 : instrument_node "docs_apply" docs_apply deps s11 w11 =
      (Except.ok s12, w12))
    (h13 : recalc deps s12 w12 = (Except.ok s13, w13)) :
    Graph.ainvoke deps s0 w0 = (Except.ok s13, w13) := by
  unfold Graph.ainvoke node_sequence
  rw [runNodes_cons_ok _ _ _ _ _ _ h1, runNodes_cons_ok _ _ _ _ _ _ h2,
      runNodes_cons_ok _ _ _ _ _ _ h3, runNodes_cons_ok _ _ _ _ _ _ h4,
      runNodes_cons_ok _ _ _ _ _ _ h5, runNodes_cons_ok _ _ _ _ _ _ h6,
      runNodes_cons_ok _ _ _ _ _ _ h7, runNodes_cons_ok _ _ _ _ _ _ h8,
      runNodes_cons_ok _ _ _ _ _ _ h9, runNodes_cons_ok _ _ _ _ _ _ h10,
      runNodes_cons_ok _ _ _ _ _ _ h11, runNodes_cons_ok _ _ _ _ _ _ h12,
      runNodes_cons_ok _ _ _ _ _ _ h13]
  rfl

/-- `Runner._run` on the interrupt: persists the carried state as
`AWAITING_APPROVAL` and returns that status instead of re-raising. -/
theorem runner_run_pause (deps : Deps) (state : GraphState) (w : World)
    (aid aid2 : String) (sA : GraphState) (wA : World)
    (hs : state.analysis_id = some aid)
    (hainv : Graph.ainvoke deps state w =
      (Except.error (Err.approvalPending aid2 (some sA)), wA))
    (hne : ¬ (sA = emptyGraphState)) :
    Runner.run deps state w =
      (Except.ok (sA, AnalysisStatus.AWAITING_APPROVAL),
       wA.update_status aid AnalysisStatus.AWAITING_APPROVAL
         (some (Payload.runnerP (state_to_payload sA)))) := by
  unfold Runner.run
  rw [hainv]
  dsimp only
  rw [if_neg hne]
  rw [hs]

/-- `Runner._run` on success: persists `COMPLETED` and returns it. -/
theorem runner_run_complete (deps : Deps) (state : GraphState) (w : World)
    (aid : String) (res : GraphState) (wA : World)
    (hs : state.analysis_id = some aid)
    (hainv : Graph.ainvoke deps state w = (Except.ok res, wA)) :
    Runner.run deps state w =
      (Except.ok (res, AnalysisStatus.COMPLETED),
       wA.update_status aid AnalysisStatus.COMPLETED
         (some (Payload.runnerP (state_to_payload res)))) := by
  unfold Runner.run
  rw [hainv]
  dsimp only
  rw [hs]

/-- `Runner.kickoff` in terms of the underlying `_run` call. -/
theorem kickoff_of_run (deps : Deps) (aid : String) (req : AnalysisRequest)
    (w : World) (st : GraphState) (stat : AnalysisStatus) (wK : World)
    (h : Runner.run deps
        { analysis_id := some aid, email := some req.email,
          cv_doc_id := some req.cvDocId,
          job_description := some (req.jobDescription.getD ""),
          job_description_url := req.jobDescriptionUrl }
        (w.create_analysis aid req.email req.cvDocId
          (Payload.runnerP (state_to_payload
            { analysis_id := some aid, email := some req.email,
              cv_doc_id := some req.cvDocId,
              job_description := some (req.jobDescription.getD ""),
              job_description_url := req.jobDescriptionUrl }))) =
      (Except.ok (st, stat), wK)) :
    Runner.kickoff deps aid req w = (Except.ok (aid, stat), wK) := by
  unfold Runner.kickoff
  dsimp only
  rw [h]

/-- `Runner.resume` in terms of the underlying `_run` call. -/
theorem resume_of_run (deps : Deps) (aid : String) (w : World)
    (rec : AnalysisRecord) (st : GraphState) (stat : AnalysisStatus)
    (wR : World)
    (hget : w.get_analysis aid = some rec)
    (h : Runner.run deps
        { payload_to_state rec.payload with
            analysis_id := some aid, email := some rec.email,
            cv_doc_id := some rec.cv_doc_id,
            approval_granted := some true,
            awaiting_approval := some false } w =
      (Except.ok (st, stat), wR)) :
    Runner.resume deps aid w = (Except.ok stat, wR) := by
  unfold Runner.resume
  rw [hget]
  dsimp only
  rw [h]

/-- `get_analysis` as the join of the `analyses` row with the most
recent status-log row. -/
theorem get_analysis_eq (w : World) (aid : String) (row : AnalysisRow)
    (srow : StatusRow)
    (hfind : w.analyses.find? (fun r => r.id == aid) = some row)
    (hlatest : latestRow w aid = some srow) :
    w.get_analysis aid =
      some { email := row.email, cv_doc_id := row.cv_doc_id,
             status := srow.status, payload := srow.payload,
             approval_token := row.approval_token,
             last_error := srow.last_error } := by
  unfold World.get_analysis
  rw [hfind, hlatest]

set_option maxHeartbeats 3200000 in
/-- Claim C1: on a fresh run whose approval has not been granted (and
whose inputs are sane: a non-empty run id, a non-empty exported CV under
the size cap, and a non-empty merged job description), `Runner.kickoff`
catches the `ApprovalPendingError` raised inside the graph at
`docs_apply`, persists the carried state as the most recent status row,
and returns `AWAITING_APPROVAL` instead of propagating the exception;
calling `Runner.resume` on that run afterward returns `COMPLETED`. -/
theorem orch_kickoff_pause_resume_complete (deps : Deps)
    (req : AnalysisRequest) (aid : String) (ha : aid ≠ "")
    (hcv : deps.export_doc_text req.cvDocId ≠ "")
    (hsize : ¬ MAX_DOC_BYTES < (deps.export_doc_text req.cvDocId).utf8ByteSize)
    (hjd : mergedJD deps req ≠ "") :
    (Runner.kickoff deps aid req {}).1 =
      Except.ok (aid, AnalysisStatus.AWAITING_APPROVAL) ∧
    ((latestRow (Runner.kickoff deps aid req {}).2 aid).map
      (fun r => r.status)) = some AnalysisStatus.AWAITING_APPROVAL ∧
    (Runner.resume deps aid (Runner.kickoff deps aid req {}).2).1 =
      Except.ok AnalysisStatus.COMPLETED := by
  set cvt : String := deps.export_doc_text req.cvDocId with hcvtd
  set jdt : String := mergedJD deps req with hjdtd
  set tok : String := deps.sign_token aid with htokd
  set s0 : GraphState :=
    { analysis_id := some aid, email := some req.email,
      cv_doc_id := some req.cvDocId,
      job_description := some (req.jobDescription.getD ""),
      job_description_url := req.jobDescriptionUrl } with hs0d
  set w0 : World := ({} : World).create_analysis aid req.email req.cvDocId
    (Payload.runnerP (state_to_payload s0)) with hw0d
  have h1 := ingest_eq deps s0 w0 aid req.email req.cvDocId rfl rfl rfl
  set s1 : GraphState := { s0 with
    project_suggestions := some []
    mvp_projects := some [] } with hs1d
  set w1 : World := w0.update_status aid AnalysisStatus.RUNNING
    (some (Payload.ingestP req.email req.cvDocId (s0.job_description.getD "")
      s0.job_description_url)) with hw1d
  have h2i := drive_export_fetch_eq deps s1 w1 aid req.cvDocId rfl rfl rfl hsize
  set s2 : GraphState := { s1 with cv_text := some cvt } with hs2d
  set w2a : World := ({ w1 with
    driveExports := w1.driveExports ++ [req.cvDocId] } : World).save_artifact
    aid "cv_text" (Artifact.text cvt) with hw2ad
  have h2 := instrument_ok_eq "drive_export" aid drive_export deps s1 s2 w1 w2a
    rfl ha rfl h2i rfl
  set w2 : World := instOkWorld "drive_export" aid s1 s2 w1 w2a with hw2d
  have h3i := merge_jd_eq deps req aid s2 w2 rfl rfl rfl hjd
  set s3 : GraphState := { s2 with jd_text := some jdt } with hs3d
  set w3a : World := (mergeWorld deps req w2).save_artifact aid "jd_text"
    (Artifact.text jdt) with hw3ad
  have hrf3a : w3a.recordFaults = [] :=
    ((mergeWorld_frame deps req w2).2.2.1).trans rfl
  have h3 := instrument_ok_eq "merge_jd" aid merge_jd deps s2 s3 w2 w3a
    rfl ha rfl h3i hrf3a
  set w3 : World := instOkWorld "merge_jd" aid s2 s3 w2 w3a with hw3d
  have h4 := jd_analyze_compute_eq deps s3 w3 aid cvt jdt rfl rfl rfl rfl
  set A : CvAnalysis := deps.analyze_alignment cvt jdt with hAd
  set s4 : GraphState := { s3 with cv_analysis := some A } with hs4d
  set w4 : World := ({ w3 with
    llmAlignCalls := w3.llmAlignCalls ++ [(cvt, jdt)] } : World).save_artifact
    aid "cv_analysis" (Artifact.analysisA A) with hw4d
  have h5 := cv_score_compute_eq deps s4 w4 aid cvt jdt rfl rfl rfl rfl
  set SC : CvScore := deps.score_cv cvt jdt s4.cv_analysis with hSCd
  set IMP : ImprovementPlan := deps.improvement_plan cvt jdt SC with hIMPd
  set s5 : GraphState := { s4 with
    score := some SC
    improvements := some IMP } with hs5d
  set w5 : World := ((({ w4 with
    llmScoreCalls := w4.llmScoreCalls ++ [(cvt, jdt)]
    llmImproveCalls := w4.llmImproveCalls ++ [(cvt, jdt)] } : World).save_artifact
    aid "cv_score" (Artifact.scoreA SC)).save_artifact aid "cv_improvements"
    (Artifact.planA IMP)) with hw5d
  have hrf5 : w5.recordFaults = [] := hrf3a
  have h6i := build_queries_eq deps s5 w5
  set s6 : GraphState := { s5 with
    skill_queries := some (skill_queries_of s5.score s5.cv_analysis) } with hs6d
  have h6 := instrument_ok_eq "build_queries" aid build_queries deps s5 s6 w5 w5
    rfl ha rfl h6i hrf5
  set w6 : World := instOkWorld "build_queries" aid s5 s6 w5 w5 with hw6d
  obtain ⟨ps, pc, wyt, h7i, h7F⟩ := yt_branch_shape deps s6 w6 aid rfl
  set s7 : GraphState := { s6 with
    project_suggestions := some ps
    preferred_channels := pc } with hs7d
  have hrfyt : wyt.recordFaults = [] := (h7F.2.2.1).trans hrf5
  have h7 := instrument_ok_eq "yt_branch" aid yt_branch deps s6 s7 w6 wyt
    rfl ha rfl h7i hrfyt
  set w7 : World := instOkWorld "yt_branch" aid s6 s7 w6 wyt with hw7d
  obtain ⟨mv, wmv, h8i, h8F⟩ := generate_mvp_shape deps s7 w7 aid rfl
  set s8 : GraphState := { s7 with mvp_projects := mv } with hs8d
  have hrfmv : wmv.recordFaults = [] := (h8F.2.2.1).trans hrfyt
  have h8 := instrument_ok_eq "mvp_projects" aid generate_mvp deps s7 s8 w7 wmv
    rfl ha rfl h8i hrfmv
  set w8 : World := instOkWorld "mvp_projects" aid s7 s8 w7 wmv with hw8d
  have h9i := collect_skip deps s8 w8 ps rfl
  have h9 := instrument_ok_eq "collect" aid collect deps s8 s8 w8 w8
    rfl ha rfl h9i hrfmv
  set w9 : World := instOkWorld "collect" aid s8 s8 w8 w8 with hw9d
  obtain ⟨msg, h10⟩ := send_email_shape deps s8 w9 aid req.email req.cvDocId
    rfl rfl rfl rfl
  set s10 : GraphState := { s8 with
    awaiting_approval := some true
    approval_token := some tok } with hs10d
  set pay10 : Payload := Payload.emailP s8.cv_analysis s8.score
    (s8.project_suggestions.getD []) (s8.mvp_projects.getD []) with hpay10d
  set w10 : World := World.update_status
    (World.set_approval_token ({ w9 with emails := w9.emails ++ [msg] } : World)
      aid tok) aid AnalysisStatus.AWAITING_APPROVAL (some pay10) with hw10d
  have h11 := wait_approval_eq deps s10 w10
  set s11 : GraphState := { s10 with awaiting_approval := some true } with hs11d
  have h12i := docs_apply_pending_eq deps s11 w10 aid rfl rfl
  set e12 : Err := Err.approvalPending aid (some s11) with he12d
  have hrfw10 : w10.recordFaults = [] := hrfmv
  have h12 := instrument_error_eq "docs_apply" aid docs_apply deps s11 w10 w10
    e12 rfl ha h12i hrfw10
  set wE : World := instErrWorld "docs_apply" aid s11 e12 w10 w10 with hwEd
  have hainv : Graph.ainvoke deps s0 w0 = (Except.error e12, wE) :=
    ainvoke_pause deps h1 h2 h3 h4 h5 h6 h7 h8 h9 h10 h11 h12
  have hne : ¬ (s11 = emptyGraphState) := by
    intro hEq
    exact Option.noConfusion
      (show (some aid : Option String) = none from
        congrArg GraphState.analysis_id hEq)
  set payA : Payload := Payload.runnerP (state_to_payload s11) with hpayAd
  have hrun := runner_run_pause deps s0 w0 aid aid s11 wE rfl hainv hne
  set wK : World := wE.update_status aid AnalysisStatus.AWAITING_APPROVAL
    (some payA) with hwKd
  have hkick : Runner.kickoff deps aid req {} =
      (Except.ok (aid, AnalysisStatus.AWAITING_APPROVAL), wK) :=
    kickoff_of_run deps aid req {} s11 AnalysisStatus.AWAITING_APPROVAL wK hrun
  have hwf0 : WFp w0 aid :=
    WFp_create {} aid aid req.email req.cvDocId _ (WFp_emptyW aid)
  have hwf1 : WFp w1 aid := WFp_update w0 aid AnalysisStatus.RUNNING _ none hwf0
  have hwf2 : WFp w2 aid := WFp_frame w1 w2 aid hwf1 rfl (Nat.le_add_right _ 2)
  have hlog3 : w3.statusLog = w2.statusLog := (mergeWorld_frame deps req w2).1
  have hclk3 : w2.clock ≤ w3.clock := by
    have hc : w3.clock = (mergeWorld deps req w2).clock + 2 := rfl
    rw [hc, (mergeWorld_frame deps req w2).2.2.2]
    exact Nat.le_add_right _ 2
  have hwf3 : WFp w3 aid := WFp_frame w2 w3 aid hwf2 hlog3 hclk3
  have hwf5 : WFp w5 aid := WFp_frame w3 w5 aid hwf3 rfl (Nat.le_add_right _ 3)
  have hwf6 : WFp w6 aid := WFp_frame w5 w6 aid hwf5 rfl (Nat.le_add_right _ 1)
  have hwf7 : WFp w7 aid := WFp_frame w6 w7 aid hwf6 h7F.2.1
    (le_trans h7F.2.2.2 (Nat.le_succ _))
  have hwf8 : WFp w8 aid := WFp_frame w7 w8 aid hwf7 h8F.2.1
    (le_trans h8F.2.2.2 (Nat.le_succ _))
  have hwf9 : WFp w9 aid := WFp_frame w8 w9 aid hwf8 rfl (Nat.le_add_right _ 1)
  have hwfb : WFp (World.set_approval_token
      ({ w9 with emails := w9.emails ++ [msg] } : World) aid tok) aid :=
    WFp_frame w9 _ aid hwf9 rfl (Nat.le_refl _)
  have hwf10 : WFp w10 aid :=
    WFp_update _ aid AnalysisStatus.AWAITING_APPROVAL _ none hwfb
  have hwfE : WFp wE aid :=
    WFp_frame w10 wE aid hwf10 rfl (Nat.le_add_right _ 1)
  have hlatest : latestRow wK aid =
      some { analysis_id := aid, status := AnalysisStatus.AWAITING_APPROVAL,
             payload := payA, last_error := none, recorded_at := wE.clock } :=
    latestRow_update_status wE aid AnalysisStatus.AWAITING_APPROVAL payA none hwfE
  have hana3 : w3.analyses =
      [{ id := aid, email := req.email, cv_doc_id := req.cvDocId,
         approval_token := none }] :=
    ((mergeWorld_frame deps req w2).2.1).trans rfl
  have hanayt : wyt.analyses =
      [{ id := aid, email := req.email, cv_doc_id := req.cvDocId,
         approval_token := none }] := (h7F.1).trans hana3
  have hanamv : wmv.analyses =
      [{ id := aid, email := req.email, cv_doc_id := req.cvDocId,
         approval_token := none }] := (h8F.1).trans hanayt
  have hanaK : wK.analyses =
      [{ id := aid, email := req.email, cv_doc_id := req.cvDocId,
         approval_token := some tok }] := by
    have h0 : wK.analyses = (wmv.analyses).map
        (fun r => if r.id == aid then { r with approval_token := some tok }
          else r) := rfl
    rw [h0, hanamv]
    simp
  have hfindK : wK.analyses.find? (fun r => r.id == aid) =
      some { id := aid, email := req.email, cv_doc_id := req.cvDocId,
             approval_token := some tok } := by
    rw [hanaK]
    simp [List.find?]
  set recR : AnalysisRecord := {
    email := req.email
    cv_doc_id := req.cvDocId
    status := AnalysisStatus.AWAITING_APPROVAL
    payload := payA
    approval_token := some tok
    last_error := none } with hrecd
  have hget : wK.get_analysis aid = some recR :=
    get_analysis_eq wK aid
      { id := aid, email := req.email, cv_doc_id := req.cvDocId,
        approval_token := some tok }
      { analysis_id := aid, status := AnalysisStatus.AWAITING_APPROVAL,
        payload := payA, last_error := none, recorded_at := wE.clock }
      hfindK hlatest
  set sR : GraphState := { payload_to_state recR.payload with
    analysis_id := some aid
    email := some recR.email
    cv_doc_id := some recR.cv_doc_id
    approval_granted := some true
    awaiting_approval := some false } with hsRd
  have r1 := ingest_eq deps sR wK aid req.email req.cvDocId rfl rfl rfl
  set sR1 : GraphState := { sR with
    project_suggestions := some []
    mvp_projects := some [] } with hsR1d
  set u1 : World := wK.update_status aid AnalysisStatus.RUNNING
    (some (Payload.ingestP req.email req.cvDocId (sR.job_description.getD "")
      sR.job_description_url)) with hu1d
  have hcv2 : ¬ (cvt = "") := hcv
  have hcvtrue : truthyS sR1.cv_text = true := by
    show (!(decide (cvt = ""))) = true
    rw [decide_eq_false hcv2]
    rfl
  have r2i := drive_export_skip deps sR1 u1 hcvtrue
  have hrfu1 : u1.recordFaults = [] := hrfmv
  have r2 := instrument_ok_eq "drive_export" aid drive_export deps sR1 sR1 u1 u1
    rfl ha rfl r2i hrfu1
  set u2 : World := instOkWorld "drive_export" aid sR1 sR1 u1 u1 with hu2d
  have r3i := merge_jd_eq deps req aid sR1 u2 rfl rfl rfl hjd
  set sR3 : GraphState := { sR1 with jd_text := some jdt } with hsR3d
  set u3a : World := (mergeWorld deps req u2).save_artifact aid "jd_text"
    (Artifact.text jdt) with hu3ad
  have hrfu3a : u3a.recordFaults = [] :=
    ((mergeWorld_frame deps req u2).2.2.1).trans hrfu1
  have r3 := instrument_ok_eq "merge_jd" aid merge_jd deps sR1 sR3 u2 u3a
    rfl ha rfl r3i hrfu3a
  set u3 : World := instOkWorld "merge_jd" aid sR1 sR3 u2 u3a with hu3d
  have r4 := jd_analyze_skip deps sR3 u3 A rfl
  have r5 := cv_score_skip deps sR3 u3 SC IMP rfl rfl
  have r6i := build_queries_eq deps sR3 u3
  set sR6 : GraphState := { sR3 with
    skill_queries := some (skill_queries_of sR3.score sR3.cv_analysis) } with hsR6d
  have hrfu3 : u3.recordFaults = [] := hrfu3a
  have r6 := instrument_ok_eq "build_queries" aid build_queries deps sR3 sR6 u3 u3
    rfl ha rfl r6i hrfu3
  set u6 : World := instOkWorld "build_queries" aid sR3 sR6 u3 u3 with hu6d
  obtain ⟨ps2, pc2, uyt, r7i, r7F⟩ := yt_branch_shape deps sR6 u6 aid rfl
  set sR7 : GraphState := { sR6 with
    project_suggestions := some ps2
    preferred_channels := pc2 } with hsR7d
  have hrfuyt : uyt.recordFaults = [] := (r7F.2.2.1).trans hrfu3
  have r7 := instrument_ok_eq "yt_branch" aid yt_branch deps sR6 sR7 u6 uyt
    rfl ha rfl r7i hrfuyt
  set u7 : World := instOkWorld "yt_branch" aid sR6 sR7 u6 uyt with hu7d
  obtain ⟨mv2, umv, r8i, r8F⟩ := generate_mvp_shape deps sR7 u7 aid rfl
  set sR8 : GraphState := { sR7 with mvp_projects := mv2 } with hsR8d
  have hrfumv : umv.recordFaults = [] := (r8F.2.2.1).trans hrfuyt
  have r8 := instrument_ok_eq "mvp_projects" aid generate_mvp deps sR7 sR8 u7 umv
    rfl ha rfl r8i hrfumv
  set u8 : World := instOkWorld "mvp_projects" aid sR7 sR8 u7 umv with hu8d
  have r9i := collect_skip deps sR8 u8 ps2 rfl
  have r9 := instrument_ok_eq "collect" aid collect deps sR8 sR8 u8 u8
    rfl ha rfl r9i hrfumv
  set u9 : World := instOkWorld "collect" aid sR8 sR8 u8 u8 with hu9d
  obtain ⟨msg2, r10⟩ := send_email_shape deps sR8 u9 aid req.email req.cvDocId
    rfl rfl rfl rfl
  set sR10 : GraphState := { sR8 with
    awaiting_approval := some true
    approval_token := some tok } with hsR10d
  set u10 : World := World.update_status
    (World.set_approval_token ({ u9 with emails := u9.emails ++ [msg2] } : World)
      aid tok) aid AnalysisStatus.AWAITING_APPROVAL
    (some (Payload.emailP sR8.cv_analysis sR8.score
      (sR8.project_suggestions.getD []) (sR8.mvp_projects.getD []))) with hu10d
  have r11 := wait_approval_eq deps sR10 u10
  set sR11 : GraphState := { sR10 with awaiting_approval := some true } with hsR11d
  have r12i := docs_apply_apply_eq deps sR11 u10 aid req.cvDocId cvt IMP
    rfl rfl rfl rfl rfl
  set sR12 : GraphState := { sR11 with
    cv_text := some (format_improvements IMP ++ "\\n" ++ cvt) } with hsR12d
  set u12a : World := ({ u10 with docPrepends := u10.docPrepends ++
    [(req.cvDocId, format_improvements IMP)] } : World).save_artifact aid
    "applied_improvements" (Artifact.text (format_improvements IMP)) with hu12ad
  have hrfu12a : u12a.recordFaults = [] := hrfumv
  have r12 := instrument_ok_eq "docs_apply" aid docs_apply deps sR11 sR12 u10 u12a
    rfl ha rfl r12i hrfu12a
  set u12 : World := instOkWorld "docs_apply" aid sR11 sR12 u10 u12a with hu12d
  have r13 := recalc_eq deps sR12 u12 aid
    (format_improvements IMP ++ "\\n" ++ cvt) jdt req.cvDocId req.email
    rfl rfl rfl rfl rfl
  set SC2 : CvScore := deps.score_cv (format_improvements IMP ++ "\\n" ++ cvt)
    jdt sR12.cv_analysis with hSC2d
  set sR13 : GraphState := { sR12 with
    score := some SC2
    awaiting_approval := some false } with hsR13d
  set u13 : World := (({ u12 with
    llmScoreCalls := u12.llmScoreCalls ++
      [(format_improvements IMP ++ "\\n" ++ cvt, jdt)]
    emails := u12.emails ++
      [({ toAddr := req.email, subject := "CV updates applied",
          html := deps.render "email/completion.html.j2" aid } : EmailMsg)] }
    : World).save_artifact aid "final_score"
    (Artifact.scoreA SC2)).update_status aid AnalysisStatus.COMPLETED
    (some (Payload.recalcP sR12.cv_analysis SC2 sR12.improvements
      (sR12.project_suggestions.getD []) (sR12.mvp_projects.getD []))) with hu13d
  have hainvR : Graph.ainvoke deps sR wK = (Except.ok sR13, u13) :=
    ainvoke_complete deps r1 r2 r3 r4 r5 r6 r7 r8 r9 r10 r11 r12 r13
  have hrunR : Runner.run deps sR wK =
      (Except.ok (sR13, AnalysisStatus.COMPLETED),
       u13.update_status aid AnalysisStatus.COMPLETED
         (some (Payload.runnerP (state_to_payload sR13)))) :=
    runner_run_complete deps sR wK aid sR13 u13 rfl hainvR
  have hres : Runner.resume deps aid wK =
      (Except.ok AnalysisStatus.COMPLETED,
       u13.update_status aid AnalysisStatus.COMPLETED
         (some (Payload.runnerP (state_to_payload sR13)))) :=
    resume_of_run deps aid wK recR sR13 AnalysisStatus.COMPLETED _ hget hrunR
  refine ⟨?_, ?_, ?_⟩
  · rw [hkick]
  · rw [hkick]
    show (latestRow wK aid).map (fun r => r.status) =
      some AnalysisStatus.AWAITING_APPROVAL
    rw [hlatest]
    rfl
  · rw [hkick]
    show (Runner.resume deps aid wK).1 = Except.ok AnalysisStatus.COMPLETED
    rw [hres]

set_option maxHeartbeats 3200000 in
/-- Witness for C1 at the demo scenario (inline job description, no
YouTube key). -/
theorem orch_kickoff_pause_resume_complete_witness :
    (Runner.kickoff demoDeps "run1" demoReq {}).1 =
      Except.ok ("run1", AnalysisStatus.AWAITING_APPROVAL) ∧
    ((latestRow (Runner.kickoff demoDeps "run1" demoReq {}).2 "run1").map
      (fun r => r.status)) = some AnalysisStatus.AWAITING_APPROVAL ∧
    (Runner.resume demoDeps "run1"
      (Runner.kickoff demoDeps "run1" demoReq {}).2).1 =
      Except.ok AnalysisStatus.COMPLETED :=
  orch_kickoff_pause_resume_complete demoDeps demoReq "run1"
    (by decide) (by decide) (by decide) (by decide)

end Orch

namespace Ranking

/-! ## Ranking lemmas -/

theorem duration_boost_eq_zero_iff (s : Nat) :
    duration_boost s = 0 ↔ s < MIN_DURATION_SECONDS := by
  unfold duration_boost
  by_cases h : s < MIN_DURATION_SECONDS
  · simp [h]
  · rw [if_neg h]
    constructor
    · intro h0
      exfalso
      nlinarith [le_max_left (0:ℝ)
        (1 - |(s : ℝ) - (IDEAL_DURATION_SECONDS : ℝ)| / (DURATION_SPAN_SECONDS : ℝ))]
    · intro hc
      exact absurd hc h

theorem duration_boost_nonneg (s : Nat) : 0 ≤ duration_boost s := by
  unfold duration_boost
  by_cases h : s < MIN_DURATION_SECONDS
  · rw [if_pos h]
  · rw [if_neg h]
    nlinarith [le_max_left (0:ℝ)
      (1 - |(s : ℝ) - (IDEAL_DURATION_SECONDS : ℝ)| / (DURATION_SPAN_SECONDS : ℝ))]

theorem duration_boost_pos (s : Nat) (h : ¬ s < MIN_DURATION_SECONDS) :
    0 < duration_boost s := by
  unfold duration_boost
  rw [if_neg h]
  nlinarith [le_max_left (0:ℝ)
    (1 - |(s : ℝ) - (IDEAL_DURATION_SECONDS : ℝ)| / (DURATION_SPAN_SECONDS : ℝ))]

theorem time_decay_pos (now : Int) (p : Option String) : 0 < time_decay now p := by
  unfold time_decay
  cases p with
  | none => norm_num
  | some v =>
      dsimp only
      by_cases hv : v = ""
      · rw [if_pos hv]; norm_num
      · rw [if_neg hv]
        cases parse_datetime_secs v with
        | none => norm_num
        | some pub =>
            dsimp only
            by_cases ho : over_days now pub ≤ 0
            · rw [if_pos ho]; norm_num
            · rw [if_neg ho]; exact Real.exp_pos _

theorem semantic_boost_pos (t d : String) (sk : Option String) :
    0 < semantic_boost t d sk := by
  unfold semantic_boost
  have h1 : (0:ℝ) < if sem_skill_hit (sem_text t d) sk then 1.10 else 1.0 := by
    split <;> norm_num
  have h2 : (0:ℝ) < 1 + min 0.12 ((sem_hits (sem_text t d) : ℝ) * 0.02) := by
    have : (0:ℝ) ≤ min 0.12 ((sem_hits (sem_text t d) : ℝ) * 0.02) :=
      le_min (by norm_num) (by positivity)
    linarith
  have h3 : (0:ℝ) < 1 + min 0.10 ((sem_phrases (sem_text t d) : ℝ) * 0.05) := by
    have : (0:ℝ) ≤ min 0.10 ((sem_phrases (sem_text t d) : ℝ) * 0.05) :=
      le_min (by norm_num) (by positivity)
    linarith
  have h4 : (0:ℝ) < if sem_vs (sem_text t d) then 0.95 else 1.0 := by
    split <;> norm_num
  exact mul_pos (mul_pos (mul_pos h1 h2) h3) h4

theorem viewsOf_nonneg (v : Video) : 0 ≤ viewsOf v := le_max_right _ _

theorem likesOf_nonneg (v : Video) : 0 ≤ likesOf v := le_max_right _ _

theorem commentsOf_nonneg (v : Video) : 0 ≤ commentsOf v := le_max_right _ _

theorem like_fraction_nonneg (v : Video) : 0 ≤ like_fraction v := by
  unfold like_fraction
  by_cases h : 0 < viewsOf v
  · rw [if_pos h]
    exact div_nonneg (by exact_mod_cast likesOf_nonneg v)
      (by exact_mod_cast viewsOf_nonneg v)
  · rw [if_neg h]; norm_num

theorem base_of_nonneg (v : Video) : 0 ≤ base_of v := by
  unfold base_of
  have h1 : (0:ℝ) ≤ like_fraction v * 10000 :=
    mul_nonneg (like_fraction_nonneg v) (by norm_num)
  have h2 : (0:ℝ) ≤ (viewsOf v : ℝ) / 1000 :=
    div_nonneg (by exact_mod_cast viewsOf_nonneg v) (by norm_num)
  have h3 : (0:ℝ) ≤ (commentsOf v : ℝ) * 2 :=
    mul_nonneg (by exact_mod_cast commentsOf_nonneg v) (by norm_num)
  linarith

theorem base_of_pos (v : Video) (h : 0 < viewsOf v ∨ 0 < commentsOf v) :
    0 < base_of v := by
  unfold base_of
  have h1 : (0:ℝ) ≤ like_fraction v * 10000 :=
    mul_nonneg (like_fraction_nonneg v) (by norm_num)
  have h2 : (0:ℝ) ≤ (viewsOf v : ℝ) / 1000 :=
    div_nonneg (by exact_mod_cast viewsOf_nonneg v) (by norm_num)
  have h3 : (0:ℝ) ≤ (commentsOf v : ℝ) * 2 :=
    mul_nonneg (by exact_mod_cast commentsOf_nonneg v) (by norm_num)
  rcases h with hv | hc
  · have : (0:ℝ) < (viewsOf v : ℝ) / 1000 := by
      have : (0:ℝ) < (viewsOf v : ℝ) := by exact_mod_cast hv
      positivity
    linarith
  · have : (0:ℝ) < (commentsOf v : ℝ) * 2 := by
      have : (0:ℝ) < (commentsOf v : ℝ) := by exact_mod_cast hc
      positivity
    linarith

theorem alistSet_pos (m : List (String × ℝ)) (k : String) (x : ℝ)
    (hm : ∀ p ∈ m, 0 < p.2) (hx : 0 < x) :
    ∀ p ∈ alistSet m k x, 0 < p.2 := by
  unfold alistSet
  by_cases hf : (m.find? (fun p => p.1 == k)).isSome
  · rw [if_pos hf]
    intro p hp
    obtain ⟨q, hq, hpq⟩ := List.mem_map.mp hp
    by_cases hqk : q.1 == k
    · rw [if_pos hqk] at hpq
      rw [← hpq]
      exact hx
    · rw [if_neg hqk] at hpq
      rw [← hpq]
      exact hm q hq
  · rw [if_neg hf]
    intro p hp
    rcases List.mem_append.mp hp with h1 | h2
    · exact hm p h1
    · rcases List.mem_singleton.mp h2 with rfl
      exact hx

theorem sanitize_foldl_pos (l : List (String × ℝ)) :
    ∀ acc : List (String × ℝ), (∀ p ∈ acc, 0 < p.2) →
      ∀ p ∈ l.foldl sanitize_step acc, 0 < p.2 := by
  induction l with
  | nil => intro acc hacc p hp; exact hacc p hp
  | cons x xs ih =>
      intro acc hacc
      simp only [List.foldl_cons]
      apply ih
      unfold sanitize_step
      by_cases h1 : x.1 = ""
      · rw [if_pos h1]; exact hacc
      · rw [if_neg h1]
        by_cases h2 : x.2 ≤ 0
        · rw [if_pos h2]; exact hacc
        · rw [if_neg h2]
          exact alistSet_pos acc (lowerStr (trimStr x.1)) x.2 hacc (lt_of_not_le h2)

theorem sanitize_boosts_pos (l : List (String × ℝ)) :
    ∀ p ∈ sanitize_boosts l, 0 < p.2 :=
  sanitize_foldl_pos l [] (by intro p hp; cases hp)

theorem service_default_boosts_pos :
    ∀ p ∈ service_default_boosts, 0 < p.2 :=
  sanitize_boosts_pos default_channel_boost_map

theorem channel_boost_pos (db : List (String × ℝ)) (ct : Option String)
    (ub : Option (List (String × ℝ)))
    (hdb : ∀ p ∈ db, 0 < p.2)
    (hub : ∀ m, ub = some m → ∀ p ∈ m, 0 < p.2) :
    0 < channel_boost db ct ub := by
  unfold channel_boost
  by_cases hn : lowerStr (trimStr (ct.getD "")) = ""
  · rw [if_pos hn]; norm_num
  · rw [if_neg hn]
    cases hu : ub with
    | some user =>
        unfold alistGet
        cases hf : user.find? (fun p => p.1 == lowerStr (trimStr (ct.getD ""))) with
        | none => simp only [hf]; norm_num
        | some p => simp only [hf]; exact hub user hu p (List.mem_of_find?_eq_some hf)
    | none =>
        unfold alistGet
        cases hf : db.find? (fun p => p.1 == lowerStr (trimStr (ct.getD ""))) with
        | none => simp only [hf]; norm_num
        | some p => simp only [hf]; exact hdb p (List.mem_of_find?_eq_some hf)

theorem score_eq_some (db : List (String × ℝ)) (now : Int) (v : Video)
    (sk : Option String) (ub : Option (List (String × ℝ)))
    (h : ¬ parse_duration_seconds v.duration < MIN_DURATION_SECONDS) :
    score db now v sk ub =
      some (base_of v * duration_boost (parse_duration_seconds v.duration) *
        time_decay now v.published_at *
        channel_boost db v.channel_title ub *
        semantic_boost v.title v.description sk) := by
  unfold score
  rw [if_neg (fun h0 => h ((duration_boost_eq_zero_iff _).mp h0))]

theorem score_eq_none_iff (db : List (String × ℝ)) (now : Int) (v : Video)
    (sk : Option String) (ub : Option (List (String × ℝ))) :
    score db now v sk ub = none ↔
      parse_duration_seconds v.duration < MIN_DURATION_SECONDS := by
  by_cases h : duration_boost (parse_duration_seconds v.duration) = 0
  · unfold score
    rw [if_pos h]
    simp [(duration_boost_eq_zero_iff _).mp h]
  · unfold score
    rw [if_neg h]
    simp only [reduceCtorEq, false_iff]
    exact fun hc => h ((duration_boost_eq_zero_iff _).mpr hc)

/-! ## Claim C7: duration floor rejection -/

/-- Claim C7: `RankingService.score` returns `null` exactly for videos
whose (parsed) duration is below the 15-minute minimum, regardless of
every other factor; a missing duration parses to 0 seconds, and so does
any string the ISO-8601 regex does not match — both are therefore
rejected. -/
theorem rank_duration_floor (db : List (String × ℝ)) (now : Int) (v : Video)
    (sk : Option String) (ub : Option (List (String × ℝ))) (d : String)
    (hmal : parseIsoDuration d = none) :
    (score db now v sk ub = none ↔
      parse_duration_seconds v.duration < MIN_DURATION_SECONDS) ∧
    parse_duration_seconds none = 0 ∧
    parse_duration_seconds (some d) = 0 := by
  refine ⟨score_eq_none_iff db now v sk ub, rfl, ?_⟩
  unfold parse_duration_seconds
  dsimp only
  by_cases he : d = ""
  · rw [if_pos he]
  · rw [if_neg he, hmal]

/-- Witness for C7: a 10-minute video is rejected, and a malformed
duration string parses to 0 seconds. -/
theorem rank_duration_floor_witness :
    (score service_default_boosts 0
        ({ duration := some "PT10M" } : Video) none none = none ↔
      parse_duration_seconds (some "PT10M") < MIN_DURATION_SECONDS) ∧
    parse_duration_seconds none = 0 ∧
    parse_duration_seconds (some "ninety minutes") = 0 :=
  rank_duration_floor service_default_boosts 0
    ({ duration := some "PT10M" } : Video) none none "ninety minutes" (by decide)

/-! ## Concrete score evaluations -/

/-- A `plainVid` scores exactly `base * 1.1`: the 90-minute duration is
the ideal (multiplier 1.1) and every other multiplier is neutral. -/
theorem score_plain (db : List (String × ℝ)) (vc lc cc : Int) :
    score db 0 (plainVid vc lc cc) none none =
      some (base_of (plainVid vc lc cc) * 1.1) := by
  have hdur : parse_duration_seconds (plainVid vc lc cc).duration = 5400 := rfl
  rw [score_eq_some db 0 (plainVid vc lc cc) none none (by rw [hdur]; decide)]
  rw [hdur]
  have h1 : duration_boost 5400 = 1.1 := by
    unfold duration_boost
    rw [if_neg (by decide : ¬ (5400 < MIN_DURATION_SECONDS))]
    have h0 : ((5400 : ℕ) : ℝ) - ((IDEAL_DURATION_SECONDS : ℕ) : ℝ) = 0 := by
      norm_num [IDEAL_DURATION_SECONDS]
    rw [h0, abs_zero]
    have h0b : (1 : ℝ) - 0 / ((DURATION_SPAN_SECONDS : ℕ) : ℝ) = 1 := by norm_num
    rw [h0b, max_eq_right (by norm_num : (0:ℝ) ≤ 1)]
    norm_num
  have h2 : time_decay 0 (plainVid vc lc cc).published_at = 1.0 := rfl
  have h3 : channel_boost db (plainVid vc lc cc).channel_title none = 1.0 := rfl
  have h4 : semantic_boost (plainVid vc lc cc).title
      (plainVid vc lc cc).description none = 1 := by
    show semantic_boost "" "" none = 1
    unfold semantic_boost
    rw [show sem_skill_hit (sem_text "" "") none = false from rfl]
    rw [show sem_hits (sem_text "" "") = 0 from rfl]
    rw [show sem_phrases (sem_text "" "") = 0 from rfl]
    rw [show sem_vs (sem_text "" "") = false from rfl]
    norm_num
  rw [h1, h2, h3, h4]
  norm_num

/-- The low-views high-ratio video of the C3 counterexample. -/
theorem scoreA_val :
    score service_default_boosts 0 (plainVid 1 1 0) none none =
      some 11000.0011 := by
  rw [score_plain]
  congr 1
  have hv : viewsOf (plainVid 1 1 0) = 1 := rfl
  have hl : likesOf (plainVid 1 1 0) = 1 := rfl
  have hc : commentsOf (plainVid 1 1 0) = 0 := rfl
  unfold base_of like_fraction
  rw [hv, hl, hc, if_pos (by norm_num : (0:ℤ) < 1)]
  norm_num

/-- The high-views low-ratio video of the C3 counterexample. -/
theorem scoreB_val :
    score service_default_boosts 0 (plainVid 1000000 2 0) none none =
      some 1100.022 := by
  rw [score_plain]
  congr 1
  have hv : viewsOf (plainVid 1000000 2 0) = 1000000 := rfl
  have hl : likesOf (plainVid 1000000 2 0) = 2 := rfl
  have hc : commentsOf (plainVid 1000000 2 0) = 0 := rfl
  unfold base_of like_fraction
  rw [hv, hl, hc, if_pos (by norm_num : (0:ℤ) < 1000000)]
  norm_num

/-! ## Claim C3 counterexample: higher views and likes can score lower -/

/-- Claim C3 is false on the code: two videos identical in every factor
except that the second has strictly higher view and like counts, yet the
second scores strictly lower — the `like_ratio = likes/views` term
collapses when views grow much faster than likes. -/
theorem rank_engagement_not_monotone :
    (plainVid 1000000 2 0) =
      { plainVid 1 1 0 with view_count := some 1000000, like_count := some 2 } ∧
    (1 : Int) < 1000000 ∧ (1 : Int) < 2 ∧
    score service_default_boosts 0 (plainVid 1 1 0) none none =
      some 11000.0011 ∧
    score service_default_boosts 0 (plainVid 1000000 2 0) none none =
      some 1100.022 ∧
    (1100.022 : ℝ) < 11000.0011 :=
  ⟨by decide, by decide, by decide, scoreA_val, scoreB_val, by norm_num⟩

/-! ## Claim C10: scores are null or non-negative -/

/-- Claim C10: on every caller path (user boost maps pass through
`_sanitize_boosts`, the default map is sanitised at construction),
`RankingService.score` returns either `null` or a non-negative number:
the raw counts are floored at 0 before the base formula and, once the
duration rejection has not fired, every multiplier applied is strictly
positive. -/
theorem rank_score_nonneg (now : Int) (v : Video) (sk : Option String)
    (raw : Option (List (String × ℝ))) (r : ℝ)
    (h : score service_default_boosts now v sk
      (Option.map sanitize_boosts raw) = some r) : 0 ≤ r := by
  by_cases hd : parse_duration_seconds v.duration < MIN_DURATION_SECONDS
  · rw [(score_eq_none_iff _ _ _ _ _).mpr hd] at h
    exact Option.noConfusion h
  · rw [score_eq_some _ _ _ _ _ hd] at h
    have hr := Option.some.inj h
    subst hr
    have hch : 0 < channel_boost service_default_boosts v.channel_title
        (Option.map sanitize_boosts raw) := by
      apply channel_boost_pos _ _ _ service_default_boosts_pos
      intro m hm
      cases raw with
      | none => cases hm
      | some l =>
          have hml := Option.some.inj hm
          rw [← hml]
          exact sanitize_boosts_pos l
    exact mul_nonneg
      (mul_nonneg
        (mul_nonneg
          (mul_nonneg (base_of_nonneg v) (duration_boost_nonneg _))
          (le_of_lt (time_decay_pos _ _)))
        (le_of_lt hch))
      (le_of_lt (semantic_boost_pos _ _ _))

/-- Witness for C10 at the concrete counterexample video. -/
theorem rank_score_nonneg_witness :
    score service_default_boosts 0 (plainVid 1 1 0) none
      (Option.map sanitize_boosts none) = some 11000.0011 ∧
    (0 : ℝ) ≤ 11000.0011 :=
  ⟨scoreA_val, rank_score_nonneg 0 (plainVid 1 1 0) none none 11000.0011 scoreA_val⟩

/-! ## Claim C3 (amended): monotonicity when the like ratio does not drop -/

/-- Claim C3 as amended: for two videos identical in every factor except
view and like counts, the higher-engagement video never scores lower
provided its like ratio (`likes/views`, 0 when views = 0) is not lower —
the proviso the counterexample forces; equivalently, cross-multiplied,
`likes₁·views₂ ≤ likes₂·views₁` on the floored counts. -/
theorem rank_engagement_monotone (now : Int) (sk : Option String)
    (raw : Option (List (String × ℝ))) (v1 v2 : Video)
    (hfields : v2 = { v1 with view_count := v2.view_count,
                              like_count := v2.like_count })
    (h1 : viewsOf v1 ≤ viewsOf v2) (_h2 : likesOf v1 ≤ likesOf v2)
    (h4 : likesOf v1 * viewsOf v2 ≤ likesOf v2 * viewsOf v1) :
    optionLE
      (score service_default_boosts now v1 sk (Option.map sanitize_boosts raw))
      (score service_default_boosts now v2 sk (Option.map sanitize_boosts raw)) := by
  have hdur : v2.duration = v1.duration := by rw [hfields]
  have hpub : v2.published_at = v1.published_at := by rw [hfields]
  have htit : v2.title = v1.title := by rw [hfields]
  have hdesc : v2.description = v1.description := by rw [hfields]
  have hchan : v2.channel_title = v1.channel_title := by rw [hfields]
  have hcom : commentsOf v2 = commentsOf v1 := by unfold commentsOf; rw [hfields]
  by_cases hd : parse_duration_seconds v1.duration < MIN_DURATION_SECONDS
  · rw [(score_eq_none_iff _ _ _ _ _).mpr hd,
        (score_eq_none_iff _ _ _ _ _).mpr (by rw [hdur]; exact hd)]
    trivial
  · rw [score_eq_some _ _ _ _ _ hd,
        score_eq_some _ _ _ _ _ (by rw [hdur]; exact hd)]
    simp only [optionLE]
    rw [hdur, hpub, htit, hdesc, hchan]
    have hch : 0 < channel_boost service_default_boosts v1.channel_title
        (Option.map sanitize_boosts raw) := by
      apply channel_boost_pos _ _ _ service_default_boosts_pos
      intro m hm
      cases raw with
      | none => cases hm
      | some l =>
          have hml := Option.some.inj hm
          rw [← hml]
          exact sanitize_boosts_pos l
    have hM : 0 ≤ duration_boost (parse_duration_seconds v1.duration) *
        time_decay now v1.published_at *
        channel_boost service_default_boosts v1.channel_title
          (Option.map sanitize_boosts raw) *
        semantic_boost v1.title v1.description sk :=
      mul_nonneg
        (mul_nonneg
          (mul_nonneg (duration_boost_nonneg _) (le_of_lt (time_decay_pos _ _)))
          (le_of_lt hch))
        (le_of_lt (semantic_boost_pos _ _ _))
    have hfr : like_fraction v1 ≤ like_fraction v2 := by
      unfold like_fraction
      by_cases hv1 : 0 < viewsOf v1
      · have hv2 : 0 < viewsOf v2 := lt_of_lt_of_le hv1 h1
        rw [if_pos hv1, if_pos hv2]
        rw [div_le_div_iff₀ (by exact_mod_cast hv1) (by exact_mod_cast hv2)]
        exact_mod_cast h4
      · rw [if_neg hv1]
        by_cases hv2 : 0 < viewsOf v2
        · rw [if_pos hv2]
          have hnum : (0:ℝ) ≤ (likesOf v2 : ℝ) / (viewsOf v2 : ℝ) := by
            apply div_nonneg
            · exact_mod_cast likesOf_nonneg v2
            · exact_mod_cast viewsOf_nonneg v2
          linarith
        · rw [if_neg hv2]
    have hbase : base_of v1 ≤ base_of v2 := by
      unfold base_of
      rw [hcom]
      have hvr : (viewsOf v1 : ℝ) / 1000 ≤ (viewsOf v2 : ℝ) / 1000 := by
        have : (viewsOf v1 : ℝ) ≤ (viewsOf v2 : ℝ) := by exact_mod_cast h1
        linarith
      nlinarith [hfr]
    calc base_of v1 * duration_boost (parse_duration_seconds v1.duration) *
          time_decay now v1.published_at *
          channel_boost service_default_boosts v1.channel_title
            (Option.map sanitize_boosts raw) *
          semantic_boost v1.title v1.description sk
        = base_of v1 * (duration_boost (parse_duration_seconds v1.duration) *
            time_decay now v1.published_at *
            channel_boost service_default_boosts v1.channel_title
              (Option.map sanitize_boosts raw) *
            semantic_boost v1.title v1.description sk) := by ring
      _ ≤ base_of v2 * (duration_boost (parse_duration_seconds v1.duration) *
            time_decay now v1.published_at *
            channel_boost service_default_boosts v1.channel_title
              (Option.map sanitize_boosts raw) *
            semantic_boost v1.title v1.description sk) :=
          mul_le_mul_of_nonneg_right hbase hM
      _ = base_of v2 * duration_boost (parse_duration_seconds v1.duration) *
            time_decay now v1.published_at *
            channel_boost service_default_boosts v1.channel_title
              (Option.map sanitize_boosts raw) *
            semantic_boost v1.title v1.description sk := by ring

/-- Witness for the amended C3 at doubled views and likes (constant like
ratio). -/
theorem rank_engagement_monotone_witness :
    optionLE
      (score service_default_boosts 0 (plainVid 10 5 0) none
        (Option.map sanitize_boosts none))
      (score service_default_boosts 0 (plainVid 20 10 0) none
        (Option.map sanitize_boosts none)) :=
  rank_engagement_monotone 0 none none (plainVid 10 5 0) (plainVid 20 10 0)
    (by decide) (by decide) (by decide) (by decide)

/-! ## Claim C8: case-insensitive per-run channel boost override -/

/-- The per-run override map of the C8 scenario survives sanitising. -/
theorem sanitize_channel_b :
    sanitize_boosts [("channel b", (1.5:ℝ))] = [("channel b", 1.5)] := by
  unfold sanitize_boosts
  simp only [List.foldl_cons, List.foldl_nil]
  unfold sanitize_step
  rw [if_neg (by decide : ¬ ((("channel b", (1.5:ℝ)).1) = ""))]
  rw [if_neg (by norm_num : ¬ ((("channel b", (1.5:ℝ)).2) ≤ 0))]
  unfold alistSet
  rw [if_neg (by decide :
    ¬ ((([] : List (String × ℝ)).find?
      (fun p => p.1 == lowerStr (trimStr ("channel b", (1.5:ℝ)).1))).isSome = true))]
  rfl

/-- Claim C8: the channel multiplier is looked up case-insensitively in
the caller-supplied per-run boost map when one is given (the default map
is not consulted, so "Channel A" gets the neutral 1.0); consequently,
with the override `{"channel b": 1.5}` and two otherwise-identical
videos from "Channel A" and "Channel B" (acceptable duration, non-zero
engagement), ranking places the Channel B video first. -/
theorem rank_channel_override (now : Int) (sk : Option String) (v1 v2 : Video)
    (hch1 : v1.channel_title = some "Channel A")
    (hfields : v2 = { v1 with channel_title := some "Channel B" })
    (hd : ¬ parse_duration_seconds v1.duration < MIN_DURATION_SECONDS)
    (heng : 0 < viewsOf v1 ∨ 0 < commentsOf v1) :
    top_videos service_default_boosts now [v1, v2] 3 sk
      (some [("channel b", 1.5)]) = [v2, v1] := by
  have hdur2 : v2.duration = v1.duration := by rw [hfields]
  have hpub2 : v2.published_at = v1.published_at := by rw [hfields]
  have htit2 : v2.title = v1.title := by rw [hfields]
  have hdesc2 : v2.description = v1.description := by rw [hfields]
  have hchan2 : v2.channel_title = some "Channel B" := by rw [hfields]
  have hbase2 : base_of v2 = base_of v1 := by
    unfold base_of like_fraction viewsOf likesOf commentsOf
    rw [hfields]
  have hc1 : channel_boost service_default_boosts (some "Channel A")
      (some [("channel b", (1.5:ℝ))]) = 1.0 := rfl
  have hc2 : channel_boost service_default_boosts (some "Channel B")
      (some [("channel b", (1.5:ℝ))]) = 1.5 := rfl
  have hs1 : score service_default_boosts now v1 sk
      (some [("channel b", (1.5:ℝ))]) =
      some (base_of v1 * duration_boost (parse_duration_seconds v1.duration) *
        time_decay now v1.published_at * 1.0 *
        semantic_boost v1.title v1.description sk) := by
    rw [score_eq_some _ _ _ _ _ hd, hch1, hc1]
  have hs2 : score service_default_boosts now v2 sk
      (some [("channel b", (1.5:ℝ))]) =
      some (base_of v1 * duration_boost (parse_duration_seconds v1.duration) *
        time_decay now v1.published_at * 1.5 *
        semantic_boost v1.title v1.description sk) := by
    rw [score_eq_some _ _ _ _ _ (by rw [hdur2]; exact hd)]
    rw [hdur2, hpub2, htit2, hdesc2, hchan2, hbase2, hc2]
  have hpos : 0 < base_of v1 *
      duration_boost (parse_duration_seconds v1.duration) *
      time_decay now v1.published_at *
      semantic_boost v1.title v1.description sk :=
    mul_pos
      (mul_pos (mul_pos (base_of_pos v1 heng) (duration_boost_pos _ hd))
        (time_decay_pos _ _))
      (semantic_boost_pos _ _ _)
  have hlt : base_of v1 * duration_boost (parse_duration_seconds v1.duration) *
      time_decay now v1.published_at * 1.0 *
      semantic_boost v1.title v1.description sk <
      base_of v1 * duration_boost (parse_duration_seconds v1.duration) *
      time_decay now v1.published_at * 1.5 *
      semantic_boost v1.title v1.description sk := by nlinarith [hpos]
  simp only [top_videos, Option.map_some', sanitize_channel_b]
  simp only [List.filterMap_cons, List.filterMap_nil, hs1, hs2, Option.map_some']
  simp only [List.insertionSort, List.orderedInsert]
  rw [if_neg (not_le.mpr hlt)]
  simp [List.orderedInsert]

/-- Witness for C8 at a concrete pair of 90-minute videos. -/
theorem rank_channel_override_witness :
    top_videos service_default_boosts 0
      [{ plainVid 100 10 1 with channel_title := some "Channel A" },
       { plainVid 100 10 1 with channel_title := some "Channel B" }] 3 none
      (some [("channel b", 1.5)]) =
      [{ plainVid 100 10 1 with channel_title := some "Channel B" },
       { plainVid 100 10 1 with channel_title := some "Channel A" }] :=
  rank_channel_override 0 none
    { plainVid 100 10 1 with channel_title := some "Channel A" }
    { plainVid 100 10 1 with channel_title := some "Channel B" }
    rfl (by decide) (by decide) (by decide)

end Ranking

end SpecProof
